import Mathlib

/-!
Verification of the temporal-sre-copilot repository against its
natural-language specification.

The Python source is shallowly embedded: Python floats carrying decimal
metric values and thresholds are modelled as exact rationals (`Rat`), with
arithmetic given by the executable helpers below (`qadd`, `qsub`, `qmul`,
`qdiv`, `qabs`); Python ints are `Int`; fallible operations return
`Option`/`Except`.  All definitions are executable so that concrete
scenarios evaluate by `decide`/`rfl`.
-/

/-- Exact rational addition, written through `mkRat` so that the kernel can
evaluate it on concrete inputs. -/
def qadd (a b : Rat) : Rat :=
  mkRat (a.num * (b.den : Int) + b.num * (a.den : Int)) (a.den * b.den)

/-- Exact rational subtraction via `mkRat`. -/
def qsub (a b : Rat) : Rat :=
  mkRat (a.num * (b.den : Int) - b.num * (a.den : Int)) (a.den * b.den)

/-- Exact rational multiplication via `mkRat`. -/
def qmul (a b : Rat) : Rat :=
  mkRat (a.num * b.num) (a.den * b.den)

/-- Exact rational division via `mkRat`; division by zero yields 0 (the
call sites below guard the zero case exactly as the Python source does). -/
def qdiv (a b : Rat) : Rat :=
  let n : Int := a.num * (b.den : Int)
  let d : Int := (a.den : Int) * b.num
  if d < 0 then mkRat (-n) (-d).toNat else mkRat n d.toNat

/-- Absolute value on `Rat`, by cases (kernel-reducible). -/
def qabs (a : Rat) : Rat := if a < 0 then -a else a

/-- Round-half-to-even to an integer, the rounding mode of Python `round`. -/
def roundHalfEven (x : Rat) : Int :=
  let f : Int := Int.floor x
  let r : Rat := qsub x (f : Rat)
  if r < mkRat 1 2 then f
  else if mkRat 1 2 < r then f + 1
  else if f % 2 = 0 then f else f + 1

/-- Python `round(x, 2)` on an exact rational. -/
def pyRound2 (x : Rat) : Rat :=
  mkRat (roundHalfEven (qmul x 100)) 100

/-- Auxiliary substring scan over character lists. -/
def strContainsAux (pat : List Char) : List Char → Bool
  | [] => pat.isEmpty
  | c :: rest => pat.isPrefixOf (c :: rest) || strContainsAux pat rest

/-- Python `pat in s` substring containment on strings. -/
def strContains (s pat : String) : Bool :=
  pat.data.isEmpty || strContainsAux pat.data s.data

/-- Lexicographic comparison on character lists (Python string `<=`). -/
def charListLe : List Char → List Char → Bool
  | [], _ => true
  | _ :: _, [] => false
  | a :: as, b :: bs => if a = b then charListLe as bs else decide (a < b)

/-- Python string comparison `a <= b` (code-point lexicographic). -/
def strLe (a b : String) : Bool := charListLe a.data b.data

/-- Insert into a sorted list keeping stability (equal keys keep order). -/
def insertLe {α : Type} (le : α → α → Bool) (x : α) : List α → List α
  | [] => [x]
  | y :: ys => if le x y then x :: y :: ys else y :: insertLe le x ys

/-- Stable insertion sort, modelling Python `sorted` / `list.sort`
(both are stable). -/
def insertionSort {α : Type} (le : α → α → Bool) : List α → List α
  | [] => []
  | x :: xs => insertLe le x (insertionSort le xs)

/-- Python `str.strip()` (whitespace from both ends). -/
def pyStrip (s : String) : String :=
  ⟨((s.data.dropWhile Char.isWhitespace).reverse.dropWhile
      Char.isWhitespace).reverse⟩

/-!
## Signal model

Embeds `copilot/models/signals.py`: the record of the 12 primary
forward-progress signals (seven groups) and the canonical health states.
Amplifier signal groups are not modelled: by construction they are not
inputs of any operation a claim refers to (the state machine accepts only
primary signals).
-/

/-- `HealthState` from `signals.py`: the three canonical health states. -/
inductive HealthState
  | HAPPY
  | STRESSED
  | CRITICAL
deriving DecidableEq, Repr

/-- The string value of a health state (`StrEnum` values in the source). -/
def HealthState.value : HealthState → String
  | .HAPPY => "happy"
  | .STRESSED => "stressed"
  | .CRITICAL => "critical"

/-- Signals 1-2: state transition throughput and latency. -/
structure StateTransitionSignals where
  throughput_per_sec : Rat
  latency_p95_ms : Rat
  latency_p99_ms : Rat
deriving DecidableEq, Repr

/-- Signal 3: workflow completion rate. -/
structure WorkflowCompletionSignals where
  completion_rate : Rat
  success_per_sec : Rat
  failed_per_sec : Rat
deriving DecidableEq, Repr

/-- Signals 4-6: history service health. -/
structure HistorySignals where
  backlog_age_sec : Rat
  task_processing_rate_per_sec : Rat
  shard_churn_rate_per_sec : Rat
deriving DecidableEq, Repr

/-- Signals 7-8: frontend service health. -/
structure FrontendSignals where
  error_rate_per_sec : Rat
  latency_p95_ms : Rat
  latency_p99_ms : Rat
deriving DecidableEq, Repr

/-- Signal 9: matching service health. -/
structure MatchingSignals where
  workflow_backlog_age_sec : Rat
  activity_backlog_age_sec : Rat
deriving DecidableEq, Repr

/-- Signal 10: poller health. -/
structure PollerSignals where
  poll_success_rate : Rat
  poll_timeout_rate : Rat
  long_poll_latency_ms : Rat
deriving DecidableEq, Repr

/-- Signals 11-12: persistence health. -/
structure PersistenceSignals where
  latency_p95_ms : Rat
  latency_p99_ms : Rat
  error_rate_per_sec : Rat
  retry_rate_per_sec : Rat
deriving DecidableEq, Repr

/-- All 12 primary signals that decide health state (`PrimarySignals`). -/
structure PrimarySignals where
  state_transitions : StateTransitionSignals
  workflow_completion : WorkflowCompletionSignals
  history : HistorySignals
  frontend : FrontendSignals
  matching : MatchingSignals
  poller : PollerSignals
  persistence : PersistenceSignals
deriving DecidableEq, Repr

/-!
## Threshold configuration

Embeds `copilot/models/config.py` (`CriticalThresholds`,
`StressedThresholds`, `HealthyThresholds`) with the field defaults of the
source.  Decimal float defaults are rendered as exact rationals.
-/

/-- Thresholds that trigger CRITICAL state, with the defaults of
`config.py`.  The field `completion_rate_demand_floor_per_sec` is read by
`evaluate_health_state`'s completion-rate gate but its declaration is
absent from the provided sources (the `config.py` under `src/` predates
it).  Modelled from the spec: the completion-rate gate is demand-gated by
a global default demand floor (spec section 4.1 and open questions); the
default is taken as 10.0 per second, consistent with the repository's
tests in which a terminal rate of 2.5 per second does not reach the
floor and with the other per-second floors of this record. -/
structure CriticalThresholds where
  state_transitions_min_per_sec : Rat := 10
  workflow_completion_rate_min : Rat := mkRat 1 2
  history_backlog_age_max_sec : Rat := 120
  history_processing_rate_min_per_sec : Rat := 10
  persistence_error_rate_max_per_sec : Rat := 10
  completion_rate_demand_floor_per_sec : Rat := 10
deriving DecidableEq, Repr

/-- Thresholds that trigger STRESSED state, with the defaults of
`config.py`. -/
structure StressedThresholds where
  state_transition_latency_p99_max_ms : Rat := 500
  history_backlog_age_stress_sec : Rat := 30
  frontend_latency_p99_max_ms : Rat := 1000
  persistence_latency_p99_max_ms : Rat := 100
  shard_churn_rate_max_per_sec : Rat := 5
  poller_timeout_rate_max : Rat := mkRat 1 10
deriving DecidableEq, Repr

/-- Thresholds for HAPPY state, with the defaults of `config.py`. -/
structure HealthyThresholds where
  state_transitions_healthy_per_sec : Rat := 50
  history_backlog_age_healthy_sec : Rat := 10
  workflow_completion_rate_healthy : Rat := mkRat 19 20
deriving DecidableEq, Repr

/-!
## Health state machine

Embeds `copilot/models/state_machine.py`: the idle detector, the gate
predicates, the transition invariant, and `evaluate_health_state`.
-/

/-- `CONSECUTIVE_CRITICAL_THRESHOLD` from `state_machine.py`. -/
def CONSECUTIVE_CRITICAL_THRESHOLD : Int := 3

/-- `_is_idle`: zero or near-zero throughput, errors and backlog. -/
def is_idle (primary : PrimarySignals) : Bool :=
  let has_no_throughput :=
    primary.state_transitions.throughput_per_sec < 1
      && primary.history.task_processing_rate_per_sec < 1
  let has_no_errors :=
    primary.frontend.error_rate_per_sec < mkRat 1 10
      && primary.persistence.error_rate_per_sec < mkRat 1 10
      && primary.workflow_completion.failed_per_sec < mkRat 1 10
  let has_no_backlog :=
    primary.history.backlog_age_sec < 1
      && primary.matching.workflow_backlog_age_sec < 1
      && primary.matching.activity_backlog_age_sec < 1
  has_no_throughput && has_no_errors && has_no_backlog

/-- `_is_critical`: any critical gate trips (signals 1, 3 demand-gated, 4,
5, 12, checked in source order). -/
def is_critical (primary : PrimarySignals) (thresholds : CriticalThresholds) : Bool :=
  if primary.state_transitions.throughput_per_sec
      < thresholds.state_transitions_min_per_sec then true
  else
    let total_terminal :=
      qadd primary.workflow_completion.success_per_sec
        primary.workflow_completion.failed_per_sec
    if thresholds.completion_rate_demand_floor_per_sec ≤ total_terminal
        && primary.workflow_completion.completion_rate
          < thresholds.workflow_completion_rate_min then true
    else if thresholds.history_backlog_age_max_sec
        < primary.history.backlog_age_sec then true
    else if primary.history.task_processing_rate_per_sec
        < thresholds.history_processing_rate_min_per_sec then true
    else thresholds.persistence_error_rate_max_per_sec
        < primary.persistence.error_rate_per_sec

/-- `_is_near_critical`: hysteresis band above the critical thresholds. -/
def is_near_critical (primary : PrimarySignals) (thresholds : CriticalThresholds) : Bool :=
  if primary.state_transitions.throughput_per_sec
      < qmul thresholds.state_transitions_min_per_sec (mkRat 3 2) then true
  else if qmul thresholds.history_backlog_age_max_sec (mkRat 3 4)
      < primary.history.backlog_age_sec then true
  else primary.history.task_processing_rate_per_sec
      < qmul thresholds.history_processing_rate_min_per_sec (mkRat 3 2)

/-- `_is_stressed`: any stressed gate trips (signals 2, 4, 8, 11, 6, 10). -/
def is_stressed (primary : PrimarySignals) (thresholds : StressedThresholds) : Bool :=
  if thresholds.state_transition_latency_p99_max_ms
      < primary.state_transitions.latency_p99_ms then true
  else if thresholds.history_backlog_age_stress_sec
      < primary.history.backlog_age_sec then true
  else if thresholds.frontend_latency_p99_max_ms
      < primary.frontend.latency_p99_ms then true
  else if thresholds.persistence_latency_p99_max_ms
      < primary.persistence.latency_p99_ms then true
  else if thresholds.shard_churn_rate_max_per_sec
      < primary.history.shard_churn_rate_per_sec then true
  else thresholds.poller_timeout_rate_max < primary.poller.poll_timeout_rate

/-- `_is_healthy`: all HAPPY gates pass. -/
def is_healthy (primary : PrimarySignals) (thresholds : HealthyThresholds) : Bool :=
  thresholds.state_transitions_healthy_per_sec
      ≤ primary.state_transitions.throughput_per_sec
    && primary.history.backlog_age_sec
      ≤ thresholds.history_backlog_age_healthy_sec
    && thresholds.workflow_completion_rate_healthy
      ≤ primary.workflow_completion.completion_rate

/-- `_apply_transition_invariant`: Happy to Critical must go through
Stressed. -/
def apply_transition_invariant (current_state raw_state : HealthState) : HealthState :=
  if current_state = HealthState.HAPPY && raw_state = HealthState.CRITICAL then
    HealthState.STRESSED
  else raw_state

/-- `evaluate_health_state`: the core deterministic health evaluation,
translated branch for branch from `state_machine.py`. -/
def evaluate_health_state (primary : PrimarySignals) (current_state : HealthState)
    (critical : CriticalThresholds := {}) (stressed : StressedThresholds := {})
    (healthy : HealthyThresholds := {})
    (consecutive_critical_count : Int := 0) : HealthState × Int :=
  if is_idle primary then (HealthState.HAPPY, 0)
  else if is_critical primary critical then
    let new_count := consecutive_critical_count + 1
    if CONSECUTIVE_CRITICAL_THRESHOLD ≤ new_count then
      (apply_transition_invariant current_state HealthState.CRITICAL, new_count)
    else
      (apply_transition_invariant current_state HealthState.STRESSED, new_count)
  else
    let new_count : Int := 0
    if current_state = HealthState.CRITICAL && is_near_critical primary critical then
      (HealthState.STRESSED, new_count)
    else if is_stressed primary stressed then
      (HealthState.STRESSED, new_count)
    else if is_healthy primary healthy then
      (HealthState.HAPPY, new_count)
    else
      (HealthState.STRESSED, new_count)

/-!
## Concrete signal records for the claims' scenarios
-/

/-- The all-zero primary-signal record (every metric 0, completion rate 0). -/
def allZeroSignals : PrimarySignals where
  state_transitions := ⟨0, 0, 0⟩
  workflow_completion := ⟨0, 0, 0⟩
  history := ⟨0, 0, 0⟩
  frontend := ⟨0, 0, 0⟩
  matching := ⟨0, 0⟩
  poller := ⟨0, 0, 0⟩
  persistence := ⟨0, 0, 0, 0⟩

/-- The all-zero record with `failed_per_sec = 5`. -/
def allZeroFailedFive : PrimarySignals :=
  { allZeroSignals with workflow_completion := ⟨0, 0, 5⟩ }

/-- A record whose state-transition throughput (1/s) trips the critical
floor (10/s) while every other signal is healthy. -/
def collapsedThroughputSignals : PrimarySignals where
  state_transitions := ⟨1, 10, 20⟩
  workflow_completion := ⟨mkRat 99 100, 100, 0⟩
  history := ⟨1, 200, 0⟩
  frontend := ⟨0, 50, 80⟩
  matching := ⟨0, 0⟩
  poller := ⟨mkRat 99 100, mkRat 1 100, 10⟩
  persistence := ⟨10, 20, 0, 0⟩

/-- A clearly healthy record (every gate comfortably passes). -/
def healthySignals : PrimarySignals where
  state_transitions := ⟨200, 10, 20⟩
  workflow_completion := ⟨mkRat 99 100, 100, mkRat 1 10⟩
  history := ⟨1, 200, 0⟩
  frontend := ⟨0, 50, 80⟩
  matching := ⟨0, 0⟩
  poller := ⟨mkRat 99 100, mkRat 1 100, 10⟩
  persistence := ⟨10, 20, 0, 0⟩

/-- Scenario A of the spec: ramp-up with 100 starts/s, 2 completions/s,
completion rate 0.2, backlog 5 s, processing rate 100/s. -/
def scenarioASignals : PrimarySignals where
  state_transitions := ⟨100, 50, 80⟩
  workflow_completion := ⟨mkRat 1 5, 2, 0⟩
  history := ⟨5, 100, 0⟩
  frontend := ⟨0, 50, 80⟩
  matching := ⟨0, 0⟩
  poller := ⟨mkRat 99 100, mkRat 1 100, 10⟩
  persistence := ⟨10, 20, 0, 0⟩

/-- C1: For every primary-signal record, every threshold configuration and
every counter value, evaluating from `HAPPY` never returns `CRITICAL`: a
raw Critical decision is forced to `STRESSED` by the transition invariant,
so Happy can reach Critical only through Stressed. -/
theorem happy_never_steps_directly_to_critical
    (s : PrimarySignals) (c : CriticalThresholds) (st : StressedThresholds)
    (h : HealthyThresholds) (k : Int) :
    (evaluate_health_state s HealthState.HAPPY c st h k).1 ≠ HealthState.CRITICAL := by
  unfold evaluate_health_state apply_transition_invariant
  split_ifs <;> simp_all

/-- C2: From `STRESSED` with counter 0 and the persistently-collapsed
throughput record (1/s against the default 10/s critical floor), the
results of three consecutive evaluations are `(STRESSED, 1)`,
`(STRESSED, 2)`, `(CRITICAL, 3)` — Critical appears only on the third
(`CONSECUTIVE_CRITICAL_THRESHOLD`-th) call; and any single call in which
no critical gate trips returns a counter of 0. -/
theorem stressed_debounce_reaches_critical_on_third_call :
    evaluate_health_state collapsedThroughputSignals HealthState.STRESSED {} {} {} 0
        = (HealthState.STRESSED, 1)
      ∧ evaluate_health_state collapsedThroughputSignals HealthState.STRESSED {} {} {} 1
        = (HealthState.STRESSED, 2)
      ∧ evaluate_health_state collapsedThroughputSignals HealthState.STRESSED {} {} {} 2
        = (HealthState.CRITICAL, 3)
      ∧ ∀ (s : PrimarySignals) (x : HealthState) (k : Int),
          is_critical s {} = false →
          (evaluate_health_state s x {} {} {} k).2 = 0 := by
  refine ⟨by decide, by decide, by decide, ?_⟩
  intro s x k hc
  unfold evaluate_health_state
  simp only [hc]
  split_ifs <;> simp_all

/-- Witness for C2: a call on clearly healthy signals (no critical gate
trips) resets the debounce counter to 0 even from a large carried count. -/
theorem stressed_debounce_reaches_critical_on_third_call_witness :
    (evaluate_health_state healthySignals HealthState.HAPPY {} {} {} 7).2 = 0 :=
  stressed_debounce_reaches_critical_on_third_call.2.2.2 healthySignals
    HealthState.HAPPY 7 (by decide)

/-- C3: The workflow-completion critical gate is demand-gated — when no
other critical gate trips, `is_critical` holds exactly when the terminal
rate (success + failed) reaches the demand floor and the completion rate
is below the critical minimum; consequently the Scenario A ramp-up record
(100 starts/s, 2 completions/s, completion rate 0.2, backlog 5 s,
processing rate 100/s) never evaluates to `CRITICAL` under default
thresholds, from any state and counter. -/
theorem completion_gate_demand_gated_scenario_a_not_critical :
    (∀ (s : PrimarySignals) (c : CriticalThresholds),
        ¬ s.state_transitions.throughput_per_sec < c.state_transitions_min_per_sec →
        ¬ c.history_backlog_age_max_sec < s.history.backlog_age_sec →
        ¬ s.history.task_processing_rate_per_sec
            < c.history_processing_rate_min_per_sec →
        ¬ c.persistence_error_rate_max_per_sec
            < s.persistence.error_rate_per_sec →
        (is_critical s c = true ↔
          (c.completion_rate_demand_floor_per_sec
              ≤ qadd s.workflow_completion.success_per_sec
                  s.workflow_completion.failed_per_sec
            ∧ s.workflow_completion.completion_rate
              < c.workflow_completion_rate_min)))
      ∧ ∀ (x : HealthState) (k : Int),
          (evaluate_health_state scenarioASignals x {} {} {} k).1
            ≠ HealthState.CRITICAL := by
  constructor
  · intro s c h1 h2 h3 h4
    unfold is_critical
    simp only [if_neg h1, if_neg h2, if_neg h3]
    split_ifs with hgate
    · simp only [Bool.and_eq_true, decide_eq_true_eq] at hgate
      simp [hgate]
    · simp only [Bool.and_eq_true, decide_eq_true_eq, not_and_or] at hgate
      constructor
      · intro hp
        exact absurd (decide_eq_true_eq.mp hp) h4
      · intro hp
        rcases hgate with hg | hg <;> tauto
  · intro x k
    have hi : is_idle scenarioASignals = false := by decide
    have hc : is_critical scenarioASignals {} = false := by decide
    unfold evaluate_health_state
    simp only [hi, hc]
    split_ifs <;> simp

/-- Witness for C3: applying the demand-gate characterisation at the
Scenario A record with default thresholds shows the gate does not trip
(the terminal rate 2/s is below the demand floor). -/
theorem completion_gate_demand_gated_scenario_a_not_critical_witness :
    is_critical scenarioASignals {} = false := by
  have h := completion_gate_demand_gated_scenario_a_not_critical.1
    scenarioASignals {} (by decide) (by decide) (by decide) (by decide)
  cases hb : is_critical scenarioASignals {} with
  | false => rfl
  | true => exact absurd (h.mp hb).1 (by decide)

/-- C4: The all-zero record satisfies the idle detector, and from every
starting state and counter value `evaluate_health_state` returns
`(HAPPY, 0)` on it; the all-zero record with `failed_per_sec = 5` fails
the error-near-zero conjunct (workflow-failed rate below 0.1) and is not
idle. -/
theorem all_zero_is_idle_happy_but_failed_five_is_not :
    (∀ (x : HealthState) (k : Int),
        is_idle allZeroSignals = true
          ∧ evaluate_health_state allZeroSignals x {} {} {} k
            = (HealthState.HAPPY, 0))
      ∧ is_idle allZeroFailedFive = false := by
  refine ⟨fun x k => ⟨by decide, ?_⟩, by decide⟩
  unfold evaluate_health_state
  simp only [show is_idle allZeroSignals = true by decide]
  rfl

/-!
## Read API idle override

Embeds `copilot/api.py`: `_is_cluster_idle` and the state override applied
by the `/status` and `/status/summary` endpoints.  `_is_cluster_idle`
receives the stored `primary_signals` JSON dict; for an assessment written
by the pipeline this is the nested model dump of a full `PrimarySignals`
record, so the nested-format branch applies and every key is present —
the function is embedded on `PrimarySignals` directly (the flat legacy
format and the missing-key defaults never arise for such snapshots).
-/

/-- `_is_cluster_idle` from `api.py` (nested-format branch): near-zero
throughput, frontend and persistence error rates, and backlog ages.
Unlike the state machine's `_is_idle`, it reads no workflow-failed rate. -/
def is_cluster_idle (primary_signals : PrimarySignals) : Bool :=
  let throughput := primary_signals.state_transitions.throughput_per_sec
  let processing := primary_signals.history.task_processing_rate_per_sec
  let frontend_errors := primary_signals.frontend.error_rate_per_sec
  let persistence_errors := primary_signals.persistence.error_rate_per_sec
  let backlog := primary_signals.history.backlog_age_sec
  let wf_backlog := primary_signals.matching.workflow_backlog_age_sec
  let act_backlog := primary_signals.matching.activity_backlog_age_sec
  let has_no_throughput := throughput < 1 && processing < 1
  let has_no_errors := frontend_errors < mkRat 1 10
    && persistence_errors < mkRat 1 10
  let has_no_backlog := backlog < 1 && wf_backlog < 1 && act_backlog < 1
  has_no_throughput && has_no_errors && has_no_backlog

/-- The health-state override of `GET /status` and `GET /status/summary`:
a stored non-happy state is replaced by `HAPPY` when the stored snapshot
satisfies `_is_cluster_idle`. -/
def served_health_state (stored : HealthState)
    (snapshot : PrimarySignals) : HealthState :=
  if stored ≠ HealthState.HAPPY && is_cluster_idle snapshot then
    HealthState.HAPPY
  else stored

/-- Counterexample to C5: the all-zero snapshot with `failed_per_sec = 5`
satisfies the API's `_is_cluster_idle` (which never reads the
workflow-failed rate) but not the state machine's `_is_idle`, and a
stored `CRITICAL` assessment with this snapshot is served as `HAPPY` —
so the two idle predicates do not compute the same function, and the
override does not fire exactly when the state machine's detector holds. -/
theorem cluster_idle_differs_from_state_machine_idle :
    is_cluster_idle allZeroFailedFive = true
      ∧ is_idle allZeroFailedFive = false
      ∧ served_health_state HealthState.CRITICAL allZeroFailedFive
        = HealthState.HAPPY := by
  decide

/-- C5 (amended): the API idle predicate is weaker than the state
machine's — it omits the workflow-failed conjunct — so every snapshot
satisfying the state machine's idle detector also satisfies the API
predicate, and the endpoints serve `HAPPY` for any stored state whose
snapshot the state machine's detector accepts (in particular a stored
`CRITICAL` with an idle snapshot is served `HAPPY`); the converse fails. -/
theorem state_machine_idle_implies_served_happy
    (p : PrimarySignals) (stored : HealthState)
    (h : is_idle p = true) :
    is_cluster_idle p = true
      ∧ served_health_state stored p = HealthState.HAPPY := by
  have hci : is_cluster_idle p = true := by
    unfold is_idle at h
    unfold is_cluster_idle
    simp only [Bool.and_eq_true] at h ⊢
    tauto
  refine ⟨hci, ?_⟩
  unfold served_health_state
  cases stored <;> simp [hci]

/-- Witness for C5 (amended): a stored `CRITICAL` assessment whose
snapshot is the all-zero record is served as `HAPPY` (Scenario D). -/
theorem state_machine_idle_implies_served_happy_witness :
    is_cluster_idle allZeroSignals = true
      ∧ served_health_state HealthState.CRITICAL allZeroSignals
        = HealthState.HAPPY :=
  state_machine_idle_implies_served_happy allZeroSignals
    HealthState.CRITICAL (by decide)

/-!
## Behaviour-profile storage: baseline designation

Embeds `behaviour_profiles/storage.py` `ProfileStorage.set_baseline`.  The
metadata table is modelled as a list of rows; only the columns the
statement sequence reads or writes are carried (`id`, `cluster_id`,
`namespace`, `is_baseline`; the column `namespace` is rendered `nspace`,
a Lean keyword).  `set_baseline` runs three statements on one acquired
connection — a SELECT of the profile's key, an UPDATE clearing the
previous baseline, and an UPDATE setting the new one — with **no
enclosing transaction**, so under asyncpg each statement commits on its
own: the store after the clear UPDATE is a durable state of its own.
-/

/-- One row of the `behaviour_profiles` metadata table (the columns
`set_baseline` touches). -/
structure ProfileRow where
  id : String
  cluster_id : String
  nspace : Option String
  is_baseline : Bool
deriving DecidableEq, Repr

/-- Python truthiness of the fetched `namespace` column
(`if row["namespace"]:`): `NULL` and the empty string are falsy. -/
def nsTruthy : Option String → Bool
  | none => false
  | some s => s ≠ ""

/-- The SELECT: fetch `cluster_id, namespace` of the first row with the
given id (`fetchrow`); `none` models the `ValueError` raised when the
profile is not found (no write has happened yet). -/
def select_profile_key (store : List ProfileRow)
    (profile_id : String) : Option (String × Option String) :=
  (store.find? (fun r => r.id == profile_id)).map
    (fun r => (r.cluster_id, r.nspace))

/-- The first UPDATE: clear `is_baseline` for the profile's
cluster+namespace.  The source picks the `namespace = $2` form when the
fetched namespace is truthy and the `namespace IS NULL` form otherwise. -/
def clear_prev_baseline (store : List ProfileRow) (c : String)
    (ns : Option String) : List ProfileRow :=
  if nsTruthy ns then
    store.map (fun r =>
      if r.cluster_id = c ∧ r.nspace = ns ∧ r.is_baseline = true then
        { r with is_baseline := false }
      else r)
  else
    store.map (fun r =>
      if r.cluster_id = c ∧ r.nspace = none ∧ r.is_baseline = true then
        { r with is_baseline := false }
      else r)

/-- The second UPDATE: set `is_baseline = TRUE` on the row(s) with the
given id. -/
def mark_baseline (store : List ProfileRow)
    (profile_id : String) : List ProfileRow :=
  store.map (fun r =>
    if r.id = profile_id then { r with is_baseline := true } else r)

/-- The durable store after the SELECT and the clear UPDATE have
committed but before the set UPDATE runs: with no transaction around
`set_baseline`, this is exactly the state left behind if the operation
fails between the two UPDATEs. -/
def set_baseline_after_clear (store : List ProfileRow)
    (profile_id : String) : List ProfileRow :=
  match select_profile_key store profile_id with
  | none => store
  | some (c, ns) => clear_prev_baseline store c ns

/-- The store after a successful `set_baseline` (all three statements). -/
def set_baseline_store (store : List ProfileRow)
    (profile_id : String) : List ProfileRow :=
  match select_profile_key store profile_id with
  | none => store
  | some (c, ns) => mark_baseline (clear_prev_baseline store c ns) profile_id

/-- Concrete store for the baseline scenario: `X` not baseline, `Y`
baseline, same `(cluster_id, namespace)`. -/
def baselineStoreXY : List ProfileRow :=
  [⟨"x", "c", some "n", false⟩, ⟨"y", "c", some "n", true⟩]

/-- Counterexample to C6: `set_baseline` wraps its two UPDATEs in no
transaction, so the state after the clear UPDATE — previous baseline `Y`
cleared, new baseline `X` not yet set, no baseline at all for the key —
is durable; a failure before the second UPDATE leaves the stored
baseline assignment changed, contradicting the claimed atomicity. -/
theorem set_baseline_intermediate_state_exists :
    set_baseline_after_clear baselineStoreXY "x" ≠ baselineStoreXY
      ∧ (set_baseline_after_clear baselineStoreXY "x").all
          (fun r => !r.is_baseline) = true
      ∧ set_baseline_store baselineStoreXY "x"
        = [⟨"x", "c", some "n", true⟩, ⟨"y", "c", some "n", false⟩] := by
  decide

/-- C6 (amended): when `set_baseline(X)` runs to completion it preserves
baseline uniqueness — in the resulting store, among the rows carrying
`X`'s `(cluster_id, namespace)` key exactly the row(s) with `X`'s id are
baseline (the previous baseline is cleared, others stay clear); the
namespace must be `NULL` or non-empty for the SQL branch to match the
key.  Atomicity on failure does **not** hold: the two UPDATEs commit
separately (see the counterexample). -/
theorem set_baseline_success_unique_baseline
    (store : List ProfileRow) (pid c : String) (ns : Option String)
    (hsel : select_profile_key store pid = some (c, ns))
    (hns : ns ≠ some "") :
    (∃ r ∈ set_baseline_store store pid,
        r.id = pid ∧ r.cluster_id = c ∧ r.nspace = ns ∧ r.is_baseline = true)
      ∧ ∀ r ∈ set_baseline_store store pid,
          r.cluster_id = c → r.nspace = ns →
          (r.is_baseline = true ↔ r.id = pid) := by
  unfold set_baseline_store
  rw [hsel]
  unfold select_profile_key at hsel
  cases hfind : store.find? (fun r => r.id == pid) with
  | none => rw [hfind] at hsel; simp at hsel
  | some r0 =>
    rw [hfind] at hsel
    simp only [Option.map_some', Option.some.injEq] at hsel
    have hr0id : r0.id = pid := by
      have := List.find?_some hfind
      simpa using this
    have hr0mem : r0 ∈ store := List.mem_of_find?_eq_some hfind
    have hkey : r0.cluster_id = c ∧ r0.nspace = ns := by
      constructor
      · exact congrArg Prod.fst hsel
      · exact congrArg Prod.snd hsel
    have hcond : ∀ r1 : ProfileRow,
        clear_prev_baseline store c ns
          = store.map (fun r =>
              if r.cluster_id = c ∧ r.nspace = ns ∧ r.is_baseline = true then
                { r with is_baseline := false }
              else r) := by
      intro _
      unfold clear_prev_baseline
      cases hnt : nsTruthy ns with
      | true => simp
      | false =>
        have : ns = none := by
          cases ns with
          | none => rfl
          | some s =>
            exfalso
            unfold nsTruthy at hnt
            simp at hnt
            exact hns (by rw [hnt])
        rw [this]
        simp
    dsimp only
    rw [hcond r0]
    constructor
    · refine ⟨{ (if r0.cluster_id = c ∧ r0.nspace = ns ∧ r0.is_baseline = true then
          { r0 with is_baseline := false } else r0) with is_baseline := true }, ?_, ?_⟩
      · unfold mark_baseline
        rw [List.map_map]
        refine List.mem_map.mpr ⟨r0, hr0mem, ?_⟩
        simp only [Function.comp_apply]
        split_ifs with h <;> simp [hr0id]
      · split_ifs with h <;> simp [hr0id, hkey.1, hkey.2]
    · intro r hr hc hn
      unfold mark_baseline at hr
      rw [List.map_map] at hr
      obtain ⟨r1, hr1mem, hr1eq⟩ := List.mem_map.mp hr
      simp only [Function.comp_apply] at hr1eq
      subst hr1eq
      by_cases h1 : r1.cluster_id = c ∧ r1.nspace = ns ∧ r1.is_baseline = true
      · simp only [if_pos h1]
        by_cases h2 : r1.id = pid
        · simp [h2]
        · simp [h2]
      · simp only [if_neg h1]
        by_cases h2 : r1.id = pid
        · simp [h2]
        · simp only [if_neg h2]
          simp only [if_neg h1, if_neg h2] at hc hn
          constructor
          · intro hb
            exact absurd ⟨hc, hn, hb⟩ h1
          · intro hb
            exact absurd hb h2

/-- The row `Y` carries in the store after `set_baseline("x")`. -/
def rowYAfterSet : ProfileRow := ⟨"y", "c", some "n", false⟩

/-- Witness for C6 (amended): in the store where `Y` was baseline,
running `set_baseline("x")` to completion leaves `Y` non-baseline — the
uniqueness conclusion instantiated at `Y`'s resulting row. -/
theorem set_baseline_success_unique_baseline_witness :
    rowYAfterSet.is_baseline = true ↔ rowYAfterSet.id = "x" :=
  (set_baseline_success_unique_baseline baselineStoreXY "x" "c" (some "n")
      (by decide) (by decide)).2
    rowYAfterSet (by decide) rfl rfl

/-!
## Observation-loop workflow: query surface

Embeds `copilot/workflows/observe.py` `ObserveClusterWorkflow`: the
workflow's instance state (from `__init__`) and its `@workflow.query`
endpoints as read-only functions of that state.  A signal snapshot in the
sliding window carries the primary record and its timestamp (amplifier
groups are unread by every modelled operation).
-/

/-- A signal snapshot as held in the sliding window (`Signals`). -/
structure Signals where
  primary : PrimarySignals
  timestamp : String
deriving DecidableEq, Repr

/-- The instance state of `ObserveClusterWorkflow` (`__init__`). -/
structure ObserveClusterState where
  current_state : HealthState
  reconciled : Bool
  signal_window : List Signals
  window_size : Int
  consecutive_critical_count : Int
deriving DecidableEq, Repr

/-- The initial workflow state set by `__init__`. -/
def observeClusterInit : ObserveClusterState where
  current_state := HealthState.HAPPY
  reconciled := false
  signal_window := []
  window_size := 10
  consecutive_critical_count := 0

/-- The result of a workflow query (a JSON-serialisable value). -/
inductive QueryResult
  | str (s : String)
  | int (n : Int)
deriving DecidableEq, Repr

/-- The read-only query endpoints `ObserveClusterWorkflow` declares with
`@workflow.query`, by method name: `current_state` returning the state's
string value, and `signal_window_size` returning the window length.
These two are the only query methods in the source. -/
def observe_cluster_queries
    : List (String × (ObserveClusterState → QueryResult)) :=
  [("current_state", fun st => .str st.current_state.value),
   ("signal_window_size", fun st => .int st.signal_window.length)]

/-- A workflow state with a non-trivial debounce counter, used to show no
query observes the counter. -/
def observeStateCounterSeven : ObserveClusterState where
  current_state := HealthState.STRESSED
  reconciled := true
  signal_window := []
  window_size := 10
  consecutive_critical_count := 7

/-- Counterexample to C9: `ObserveClusterWorkflow` declares exactly the
two queries `current_state` and `signal_window_size`; at a state whose
consecutive-critical counter is 7, no query returns that counter value —
there is no query surface for the debounce counter. -/
theorem observe_queries_do_not_expose_critical_counter :
    observe_cluster_queries.map Prod.fst
        = ["current_state", "signal_window_size"]
      ∧ observeStateCounterSeven.consecutive_critical_count = 7
      ∧ (observe_cluster_queries.map
            (fun q => q.2 observeStateCounterSeven)).contains
          (QueryResult.int 7) = false := by
  constructor
  · rfl
  · constructor
    · rfl
    · rfl

/-- C9 (amended): the workflow exposes read-only queries for the current
health state and the sliding-window size — each query is a pure function
of the workflow state returning the documented value — but no query
exposes the consecutive-critical debounce counter (it is workflow state
only). -/
theorem observe_query_surface (st : ObserveClusterState) :
    (observe_cluster_queries.lookup "current_state").map (fun f => f st)
        = some (.str st.current_state.value)
      ∧ (observe_cluster_queries.lookup "signal_window_size").map
          (fun f => f st)
        = some (.int st.signal_window.length) := by
  constructor <;> rfl

/-!
## Config compiler: values and parameter model

Embeds `copilot_core/types.py` and `dsql_config/models.py`.  A Python
config value (`int | float | str | bool`) becomes the sum type `Value`;
the helpers mirror Python's coercing equality (`==`), truthiness,
`int()`, `str()` and `//`.  Prose metadata of `ParameterEntry`
(`description`, `rationale`, `value_type`, `unit`, `output_targets`) is
not modelled: no operation a claim refers to reads it.
-/

/-- A Python configuration value: `int | float | str | bool`. -/
inductive Value
  | int (n : Int)
  | float (q : Rat)
  | str (s : String)
  | bool (b : Bool)
deriving DecidableEq, Repr

/-- Python truthiness (`bool(v)`). -/
def Value.truthy : Value → Bool
  | .int n => n ≠ 0
  | .float q => q ≠ 0
  | .str s => s ≠ ""
  | .bool b => b

/-- Numeric reading of a value; Python treats `bool` as an `int`
subclass, so `True` reads as 1.  A `str` has no numeric reading. -/
def Value.asNum : Value → Option Rat
  | .int n => some (n : Rat)
  | .float q => some q
  | .str _ => none
  | .bool b => some (if b then 1 else 0)

/-- Python `==` between config values: numeric kinds compare by value
(`50 == 50.0 == True+49` style coercion), strings compare to strings,
and a string never equals a number. -/
def pyEq (a b : Value) : Bool :=
  match a.asNum, b.asNum with
  | some x, some y => x = y
  | none, none =>
    match a, b with
    | .str s, .str t => s = t
    | _, _ => false
  | _, _ => false

/-- Python `int()` on a config value (truncation toward zero for
floats).  `int()` of a non-numeric string raises in Python; no modelled
call site applies it to a string, and the embedding returns 0 there. -/
def Value.pyInt : Value → Int
  | .int n => n
  | .float q => Int.tdiv q.num (q.den : Int)
  | .bool b => if b then 1 else 0
  | .str _ => 0

/-- Python `str()` on a config value.  Every modelled call site applies
it to a string or an int; the float rendering (where Python prints a
decimal expansion) is approximated by the rational's print form. -/
def Value.pyStr : Value → String
  | .str s => s
  | .int n => toString n
  | .bool b => if b then "True" else "False"
  | .float q => toString q.num ++ (if q.den = 1 then "" else "/" ++ toString q.den)

/-- `ParameterClassification` from `copilot_core/types.py`. -/
inductive ParameterClassification
  | SLO
  | TOPOLOGY
  | SAFETY
  | TUNING
deriving DecidableEq, Repr

/-- The `source` literal of a resolved parameter. -/
inductive ParamSource
  | preset
  | modifier
  | override
  | derived
  | default
deriving DecidableEq, Repr

/-- `ResolvedParameter` from `copilot_core/types.py`. -/
structure ResolvedParameter where
  key : String
  value : Value
  classification : ParameterClassification
  source : ParamSource
deriving DecidableEq, Repr

/-- `ParameterConstraints` from `copilot_core/types.py`. -/
structure ParameterConstraints where
  min_value : Option Rat := none
  max_value : Option Rat := none
  allowed_values : Option (List Value) := none
deriving DecidableEq, Repr

/-- `ParameterEntry` (the fields the compiler reads). -/
structure ParameterEntry where
  key : String
  classification : ParameterClassification
  default_value : Value
  constraints : Option ParameterConstraints := none
deriving DecidableEq, Repr

/-- `ParameterRegistry.get`: lookup by key (keys are unique by
construction; `register` raises on duplicates). -/
def registry_get (reg : List ParameterEntry) (key : String) : Option ParameterEntry :=
  reg.find? (fun e => e.key == key)

/-- `ParameterRegistry.list_by_classification`, preserving registration
order. -/
def list_by_classification (reg : List ParameterEntry)
    (c : ParameterClassification) : List ParameterEntry :=
  reg.filter (fun e => e.classification = c)

/-- `GuardRailResult.severity` (`Literal["error", "warning"]`). -/
inductive Severity
  | error
  | warning
deriving DecidableEq, Repr

/-- `GuardRailResult` from `dsql_config/models.py`. -/
structure GuardRailResult where
  rule_name : String
  severity : Severity
  message : String
  parameter_keys : List String
deriving DecidableEq, Repr

/-- `ConfigProfile` from `dsql_config/models.py` (overrides as an
association list standing for the Python dict; `compiled_at`, a wall
clock timestamp in the source, is carried as an opaque string). -/
structure ConfigProfile where
  preset_name : String
  modifier : Option String := none
  overrides : List (String × Value) := []
  slo_params : List ResolvedParameter
  topology_params : List ResolvedParameter
  safety_params : List ResolvedParameter
  tuning_params : List ResolvedParameter
  temporal_server_version : String
  dsql_plugin_version : String
  compiled_at : String
  compiler_version : String
deriving DecidableEq, Repr

/-- `ConfigProfile.get_param`: first match scanning the SLO, topology,
safety, then tuning lists. -/
def ConfigProfile.get_param (p : ConfigProfile) (key : String) : Option ResolvedParameter :=
  (p.slo_params ++ p.topology_params ++ p.safety_params ++ p.tuning_params).find?
    (fun q => q.key == key)

/-!
## Guard rails

Embeds `dsql_config/guard_rails.py`: the seven checks and the engine
that runs all of them, accumulating results.
-/

/-- Req 5.5: `persistence.maxIdleConns` must equal `persistence.maxConns`
(a Pydantic model instance is always truthy, so the Python guard
`max_conns and max_idle` tests presence only). -/
def check_max_idle_equals_max_conns (profile : ConfigProfile) : Option GuardRailResult :=
  match profile.get_param "persistence.maxConns",
      profile.get_param "persistence.maxIdleConns" with
  | some max_conns, some max_idle =>
    if pyEq max_conns.value max_idle.value then none
    else some
      { rule_name := "max_idle_equals_max_conns"
        severity := .error
        message := "persistence.maxIdleConns (" ++ max_idle.value.pyStr
          ++ ") must equal persistence.maxConns (" ++ max_conns.value.pyStr
          ++ "). Pool decay causes rate limit pressure under load because"
          ++ " Go's database/sql closes idle connections beyond MaxIdleConns."
        parameter_keys := ["persistence.maxConns", "persistence.maxIdleConns"] }
  | _, _ => none

/-- Req 5.1: total estimated connections must not exceed DSQL's 10,000
cluster limit. -/
def check_cluster_connection_limit (profile : ConfigProfile) : Option GuardRailResult :=
  let reservoir_target := profile.get_param "dsql.reservoir_target_ready"
  let reservoir_enabled := profile.get_param "dsql.reservoir_enabled"
  let pool_per_instance : Int :=
    if (match reservoir_enabled with
        | none => true
        | some re => !re.value.truthy) then
      match profile.get_param "persistence.maxConns" with
      | some mc => mc.value.pyInt
      | none => 50
    else
      match reservoir_target with
      | some rt => rt.value.pyInt
      | none => 50
  let total_replicas : Int :=
    ["history.replicas", "matching.replicas",
     "frontend.replicas", "worker.replicas"].foldl
      (fun acc key =>
        match profile.get_param key with
        | some p => acc + p.value.pyInt
        | none => acc) 0
  let total_connections := pool_per_instance * total_replicas
  if 10000 < total_connections then
    some
      { rule_name := "cluster_connection_limit"
        severity := .error
        message := "Total estimated connections (" ++ toString total_connections
          ++ " = " ++ toString pool_per_instance ++ " per instance × "
          ++ toString total_replicas
          ++ " replicas) exceeds DSQL's 10,000 connection cluster limit."
        parameter_keys := ["dsql.reservoir_target_ready", "persistence.maxConns"] }
  else none

/-- Req 5.2: warn when matching partitions exceed what the target
throughput can utilise (`//` is Python floor division). -/
def check_matching_partition_warning (profile : ConfigProfile) : Option GuardRailResult :=
  match profile.get_param "matching.numTaskqueueReadPartitions",
      profile.get_param "target_state_transitions_per_sec" with
  | some partitions, some target_st =>
    let useful_partitions : Int := max 1 (Int.fdiv target_st.value.pyInt 50)
    if useful_partitions * 2 < partitions.value.pyInt then
      some
        { rule_name := "matching_partition_oversized"
          severity := .warning
          message := "matching.numTaskqueueReadPartitions ("
            ++ partitions.value.pyStr ++ ") is high for target throughput ("
            ++ target_st.value.pyStr ++ " st/s). Consider "
            ++ toString useful_partitions ++ " partitions to reduce overhead."
          parameter_keys := ["matching.numTaskqueueReadPartitions",
            "target_state_transitions_per_sec"] }
    else none
  | _, _ => none

/-- Req 5.3: warn when sticky execution is enabled but workflows finish
in under two seconds. -/
def check_sticky_warning (profile : ConfigProfile) : Option GuardRailResult :=
  match profile.get_param "sdk.sticky_schedule_to_start_timeout",
      profile.get_param "max_e2e_workflow_latency_ms" with
  | some sticky_timeout, some e2e_latency =>
    if e2e_latency.value.pyInt < 2000 && sticky_timeout.value.pyStr ≠ "0s" then
      some
        { rule_name := "sticky_minimal_benefit"
          severity := .warning
          message := "Sticky execution is enabled (timeout="
            ++ sticky_timeout.value.pyStr ++ ") but max_e2e_workflow_latency_ms ("
            ++ e2e_latency.value.pyStr ++ "ms) suggests workflows complete in"
            ++ " under 2 seconds. Sticky caching provides minimal benefit for"
            ++ " short-lived workflows."
          parameter_keys := ["sdk.sticky_schedule_to_start_timeout",
            "max_e2e_workflow_latency_ms"] }
    else none
  | _, _ => none

/-- Req 5.4: when the reservoir is enabled its lifetime jitter must be
non-zero. -/
def check_thundering_herd (profile : ConfigProfile) : Option GuardRailResult :=
  let jitter := profile.get_param "dsql.reservoir_lifetime_jitter"
  let reservoir_enabled := profile.get_param "dsql.reservoir_enabled"
  match reservoir_enabled, jitter with
  | some re, some j =>
    if re.value.truthy && ["0s", "0m", "0"].contains j.value.pyStr then
      some
        { rule_name := "thundering_herd_risk"
          severity := .error
          message := "dsql.reservoir_lifetime_jitter is zero while reservoir"
            ++ " is enabled. Without jitter, all connections expire"
            ++ " simultaneously causing a burst that can exceed DSQL's"
            ++ " 100 conn/sec rate limit. Set jitter to at least '1m'."
          parameter_keys := ["dsql.reservoir_lifetime_jitter",
            "dsql.reservoir_enabled"] }
    else none
  | _, _ => none

/-- Req 5.6: an enabled reservoir needs a positive target. -/
def check_reservoir_target_positive (profile : ConfigProfile) : Option GuardRailResult :=
  let reservoir_enabled := profile.get_param "dsql.reservoir_enabled"
  let reservoir_target := profile.get_param "dsql.reservoir_target_ready"
  match reservoir_enabled, reservoir_target with
  | some re, some rt =>
    if re.value.truthy && rt.value.pyInt ≤ 0 then
      some
        { rule_name := "reservoir_target_zero"
          severity := .error
          message := "dsql.reservoir_target_ready is 0 but reservoir is"
            ++ " enabled. Reservoir target must be positive when reservoir"
            ++ " is enabled."
          parameter_keys := ["dsql.reservoir_target_ready",
            "dsql.reservoir_enabled"] }
    else none
  | _, _ => none

/-- Req 5.7: an enabled distributed rate limiter needs a table name. -/
def check_distributed_rate_limiter_table (profile : ConfigProfile) : Option GuardRailResult :=
  let enabled := profile.get_param "dsql.distributed_rate_limiter_enabled"
  let table := profile.get_param "dsql.distributed_rate_limiter_table"
  match enabled with
  | some en =>
    if en.value.truthy
        && (match table with
            | none => true
            | some t => pyStrip t.value.pyStr = "") then
      some
        { rule_name := "distributed_rate_limiter_table_missing"
          severity := .error
          message := "dsql.distributed_rate_limiter_enabled is true but"
            ++ " dsql.distributed_rate_limiter_table is not configured."
            ++ " A DynamoDB table name is required for distributed"
            ++ " rate limiting."
          parameter_keys := ["dsql.distributed_rate_limiter_enabled",
            "dsql.distributed_rate_limiter_table"] }
    else none
  | none => none

/-- `GuardRailEngine.evaluate`: run the seven checks in declaration
order; each contributes its result (when any) to the accumulated list —
no short-circuit. -/
def guard_rails_evaluate (profile : ConfigProfile) : List GuardRailResult :=
  [check_max_idle_equals_max_conns profile,
   check_cluster_connection_limit profile,
   check_matching_partition_warning profile,
   check_sticky_warning profile,
   check_thundering_herd profile,
   check_reservoir_target_positive profile,
   check_distributed_rate_limiter_table profile].filterMap id

/-!
## Scale presets and workload modifiers

Embeds `dsql_config/presets.py` and `dsql_config/modifiers.py` as literal
data, together with their lookup registries.
-/

/-- `ThroughputRange` from `dsql_config/models.py`. -/
structure ThroughputRange where
  min_st_per_sec : Rat
  max_st_per_sec : Option Rat
  description : String
deriving DecidableEq, Repr

/-- `PresetDefault` from `dsql_config/models.py`. -/
structure PresetDefault where
  key : String
  value : Value
deriving DecidableEq, Repr

/-- `DerivationRule` from `dsql_config/models.py`. -/
structure DerivationRule where
  key : String
  expression : String
  depends_on : List String
deriving DecidableEq, Repr

/-- `TelemetryBound` from `copilot_core/models.py`. -/
structure TelemetryBound where
  metric : String
  lower : Rat
  upper : Rat
deriving DecidableEq, Repr

/-- `ScalePreset` from `dsql_config/models.py`. -/
structure ScalePreset where
  name : String
  description : String
  throughput_range : ThroughputRange
  slo_defaults : List PresetDefault
  topology_defaults : List PresetDefault
  safety_derivations : List DerivationRule
  tuning_derivations : List DerivationRule
  expected_bounds : List TelemetryBound
deriving DecidableEq, Repr

/-- `WorkloadModifier` from `dsql_config/modifiers.py` (adjustments as an
association list standing for the Python dict). -/
structure WorkloadModifier where
  name : String
  description : String
  adjustments : List (String × Value)
deriving DecidableEq, Repr

/-- The `starter` scale preset of `presets.py`. -/
def STARTER : ScalePreset where
  name := "starter"
  description := "Low-throughput deployment for development, testing, or light production workloads"
  throughput_range :=
    { min_st_per_sec := 0, max_st_per_sec := some 50,
      description := "Under 50 state transitions per second" }
  slo_defaults := [
    ⟨"target_state_transitions_per_sec", Value.int 25⟩,
    ⟨"target_workflow_completion_rate", Value.int 25⟩,
    ⟨"max_schedule_to_start_latency_ms", Value.int 500⟩,
    ⟨"max_e2e_workflow_latency_ms", Value.int 1000⟩]
  topology_defaults := [
    ⟨"history.shards", Value.int 512⟩,
    ⟨"history.replicas", Value.int 2⟩,
    ⟨"matching.replicas", Value.int 2⟩,
    ⟨"frontend.replicas", Value.int 2⟩,
    ⟨"worker.replicas", Value.int 1⟩,
    ⟨"matching.numTaskqueueReadPartitions", Value.int 4⟩,
    ⟨"matching.numTaskqueueWritePartitions", Value.int 4⟩,
    ⟨"sdk.worker_count", Value.int 2⟩]
  safety_derivations := [
    ⟨"persistence.maxConns", "10", []⟩,
    ⟨"persistence.maxIdleConns", "persistence.maxConns", ["persistence.maxConns"]⟩,
    ⟨"dsql.max_conn_lifetime", "'55m'", []⟩,
    ⟨"dsql.connection_timeout", "'30s'", []⟩,
    ⟨"dsql.reservoir_enabled", "False", []⟩,
    ⟨"dsql.reservoir_target_ready", "10", []⟩,
    ⟨"dsql.reservoir_base_lifetime", "'11m'", []⟩,
    ⟨"dsql.reservoir_lifetime_jitter", "'2m'", []⟩,
    ⟨"dsql.reservoir_guard_window", "'45s'", []⟩,
    ⟨"dsql.reservoir_inflight_limit", "4", []⟩,
    ⟨"dsql.connection_rate_limit", "10", []⟩,
    ⟨"dsql.connection_burst_limit", "50", []⟩,
    ⟨"dsql.distributed_rate_limiter_enabled", "False", []⟩,
    ⟨"dsql.distributed_rate_limiter_table", "''", []⟩,
    ⟨"dsql.token_bucket_enabled", "False", []⟩,
    ⟨"dsql.token_bucket_rate", "100", []⟩,
    ⟨"dsql.token_bucket_capacity", "1000", []⟩,
    ⟨"dsql.slot_block_enabled", "False", []⟩,
    ⟨"dsql.slot_block_size", "100", []⟩,
    ⟨"dsql.slot_block_count", "100", []⟩]
  tuning_derivations := [
    ⟨"history.persistenceMaxQPS", "1000", []⟩,
    ⟨"matching.persistenceMaxQPS", "1000", []⟩,
    ⟨"frontend.persistenceMaxQPS", "1000", []⟩,
    ⟨"matching.maxTaskBatchSize", "100", []⟩,
    ⟨"matching.getTasksBatchSize", "500", []⟩,
    ⟨"matching.longPollExpirationInterval", "'60s'", []⟩,
    ⟨"history.timerProcessorMaxPollRPS", "10", []⟩,
    ⟨"history.timerProcessorUpdateAckInterval", "'30s'", []⟩,
    ⟨"system.enableActivityEagerExecution", "True", []⟩,
    ⟨"sdk.max_concurrent_activities", "100", []⟩,
    ⟨"sdk.max_concurrent_workflow_tasks", "100", []⟩,
    ⟨"sdk.max_concurrent_local_activities", "100", []⟩,
    ⟨"sdk.workflow_task_pollers", "8", []⟩,
    ⟨"sdk.activity_task_pollers", "4", []⟩,
    ⟨"sdk.sticky_schedule_to_start_timeout", "'5s'", []⟩,
    ⟨"sdk.disable_eager_activities", "False", []⟩,
    ⟨"persistence.transactionSizeLimit", "4000000", []⟩,
    ⟨"history.maxBufferedQueryCount", "1000", []⟩]
  expected_bounds := [
    ⟨"state_transitions_per_sec", 0, 50⟩,
    ⟨"workflow_schedule_to_start_p99", 0, 500⟩]


/-- The `mid-scale` scale preset of `presets.py`. -/
def MID_SCALE : ScalePreset where
  name := "mid-scale"
  description := "Moderate-throughput deployment for production workloads with balanced resource allocation"
  throughput_range :=
    { min_st_per_sec := 50, max_st_per_sec := some 500,
      description := "50 to 500 state transitions per second" }
  slo_defaults := [
    ⟨"target_state_transitions_per_sec", Value.int 150⟩,
    ⟨"target_workflow_completion_rate", Value.int 150⟩,
    ⟨"max_schedule_to_start_latency_ms", Value.int 200⟩,
    ⟨"max_e2e_workflow_latency_ms", Value.int 500⟩]
  topology_defaults := [
    ⟨"history.shards", Value.int 512⟩,
    ⟨"history.replicas", Value.int 6⟩,
    ⟨"matching.replicas", Value.int 4⟩,
    ⟨"frontend.replicas", Value.int 3⟩,
    ⟨"worker.replicas", Value.int 2⟩,
    ⟨"matching.numTaskqueueReadPartitions", Value.int 8⟩,
    ⟨"matching.numTaskqueueWritePartitions", Value.int 8⟩,
    ⟨"sdk.worker_count", Value.int 8⟩]
  safety_derivations := [
    ⟨"persistence.maxConns", "50", []⟩,
    ⟨"persistence.maxIdleConns", "persistence.maxConns", ["persistence.maxConns"]⟩,
    ⟨"dsql.max_conn_lifetime", "'55m'", []⟩,
    ⟨"dsql.connection_timeout", "'30s'", []⟩,
    ⟨"dsql.reservoir_enabled", "True", []⟩,
    ⟨"dsql.reservoir_target_ready", "50", []⟩,
    ⟨"dsql.reservoir_base_lifetime", "'11m'", []⟩,
    ⟨"dsql.reservoir_lifetime_jitter", "'2m'", []⟩,
    ⟨"dsql.reservoir_guard_window", "'45s'", []⟩,
    ⟨"dsql.reservoir_inflight_limit", "8", []⟩,
    ⟨"dsql.connection_rate_limit", "10", []⟩,
    ⟨"dsql.connection_burst_limit", "100", []⟩,
    ⟨"dsql.distributed_rate_limiter_enabled", "False", []⟩,
    ⟨"dsql.distributed_rate_limiter_table", "''", []⟩,
    ⟨"dsql.token_bucket_enabled", "False", []⟩,
    ⟨"dsql.token_bucket_rate", "100", []⟩,
    ⟨"dsql.token_bucket_capacity", "1000", []⟩,
    ⟨"dsql.slot_block_enabled", "False", []⟩,
    ⟨"dsql.slot_block_size", "100", []⟩,
    ⟨"dsql.slot_block_count", "100", []⟩]
  tuning_derivations := [
    ⟨"history.persistenceMaxQPS", "6000", []⟩,
    ⟨"matching.persistenceMaxQPS", "6000", []⟩,
    ⟨"frontend.persistenceMaxQPS", "6000", []⟩,
    ⟨"matching.maxTaskBatchSize", "100", []⟩,
    ⟨"matching.getTasksBatchSize", "1000", []⟩,
    ⟨"matching.longPollExpirationInterval", "'60s'", []⟩,
    ⟨"history.timerProcessorMaxPollRPS", "20", []⟩,
    ⟨"history.timerProcessorUpdateAckInterval", "'30s'", []⟩,
    ⟨"system.enableActivityEagerExecution", "True", []⟩,
    ⟨"sdk.max_concurrent_activities", "200", []⟩,
    ⟨"sdk.max_concurrent_workflow_tasks", "200", []⟩,
    ⟨"sdk.max_concurrent_local_activities", "200", []⟩,
    ⟨"sdk.workflow_task_pollers", "16", []⟩,
    ⟨"sdk.activity_task_pollers", "8", []⟩,
    ⟨"sdk.sticky_schedule_to_start_timeout", "'5s'", []⟩,
    ⟨"sdk.disable_eager_activities", "False", []⟩,
    ⟨"persistence.transactionSizeLimit", "4000000", []⟩,
    ⟨"history.maxBufferedQueryCount", "1000", []⟩]
  expected_bounds := [
    ⟨"state_transitions_per_sec", 50, 500⟩,
    ⟨"workflow_schedule_to_start_p99", 0, 200⟩]


/-- The `high-throughput` scale preset of `presets.py`. -/
def HIGH_THROUGHPUT : ScalePreset where
  name := "high-throughput"
  description := "High-throughput deployment with aggressive resource allocation and full DSQL plugin features"
  throughput_range :=
    { min_st_per_sec := 500, max_st_per_sec := none,
      description := "Over 500 state transitions per second" }
  slo_defaults := [
    ⟨"target_state_transitions_per_sec", Value.int 1000⟩,
    ⟨"target_workflow_completion_rate", Value.int 1000⟩,
    ⟨"max_schedule_to_start_latency_ms", Value.int 100⟩,
    ⟨"max_e2e_workflow_latency_ms", Value.int 300⟩]
  topology_defaults := [
    ⟨"history.shards", Value.int 4096⟩,
    ⟨"history.replicas", Value.int 8⟩,
    ⟨"matching.replicas", Value.int 6⟩,
    ⟨"frontend.replicas", Value.int 4⟩,
    ⟨"worker.replicas", Value.int 2⟩,
    ⟨"matching.numTaskqueueReadPartitions", Value.int 16⟩,
    ⟨"matching.numTaskqueueWritePartitions", Value.int 16⟩,
    ⟨"sdk.worker_count", Value.int 16⟩]
  safety_derivations := [
    ⟨"persistence.maxConns", "50", []⟩,
    ⟨"persistence.maxIdleConns", "persistence.maxConns", ["persistence.maxConns"]⟩,
    ⟨"dsql.max_conn_lifetime", "'55m'", []⟩,
    ⟨"dsql.connection_timeout", "'30s'", []⟩,
    ⟨"dsql.reservoir_enabled", "True", []⟩,
    ⟨"dsql.reservoir_target_ready", "50", []⟩,
    ⟨"dsql.reservoir_base_lifetime", "'11m'", []⟩,
    ⟨"dsql.reservoir_lifetime_jitter", "'2m'", []⟩,
    ⟨"dsql.reservoir_guard_window", "'45s'", []⟩,
    ⟨"dsql.reservoir_inflight_limit", "8", []⟩,
    ⟨"dsql.connection_rate_limit", "8", []⟩,
    ⟨"dsql.connection_burst_limit", "40", []⟩,
    ⟨"dsql.distributed_rate_limiter_enabled", "True", []⟩,
    ⟨"dsql.distributed_rate_limiter_table", "'temporal-dsql-rate-limiter'", []⟩,
    ⟨"dsql.token_bucket_enabled", "True", []⟩,
    ⟨"dsql.token_bucket_rate", "100", []⟩,
    ⟨"dsql.token_bucket_capacity", "1000", []⟩,
    ⟨"dsql.slot_block_enabled", "True", []⟩,
    ⟨"dsql.slot_block_size", "100", []⟩,
    ⟨"dsql.slot_block_count", "100", []⟩]
  tuning_derivations := [
    ⟨"history.persistenceMaxQPS", "10000", []⟩,
    ⟨"matching.persistenceMaxQPS", "10000", []⟩,
    ⟨"frontend.persistenceMaxQPS", "10000", []⟩,
    ⟨"matching.maxTaskBatchSize", "100", []⟩,
    ⟨"matching.getTasksBatchSize", "1000", []⟩,
    ⟨"matching.longPollExpirationInterval", "'60s'", []⟩,
    ⟨"history.timerProcessorMaxPollRPS", "40", []⟩,
    ⟨"history.timerProcessorUpdateAckInterval", "'15s'", []⟩,
    ⟨"system.enableActivityEagerExecution", "True", []⟩,
    ⟨"sdk.max_concurrent_activities", "200", []⟩,
    ⟨"sdk.max_concurrent_workflow_tasks", "200", []⟩,
    ⟨"sdk.max_concurrent_local_activities", "200", []⟩,
    ⟨"sdk.workflow_task_pollers", "32", []⟩,
    ⟨"sdk.activity_task_pollers", "8", []⟩,
    ⟨"sdk.sticky_schedule_to_start_timeout", "'5s'", []⟩,
    ⟨"sdk.disable_eager_activities", "False", []⟩,
    ⟨"persistence.transactionSizeLimit", "4000000", []⟩,
    ⟨"history.maxBufferedQueryCount", "1000", []⟩]
  expected_bounds := [
    ⟨"state_transitions_per_sec", 500, 10000⟩,
    ⟨"workflow_schedule_to_start_p99", 0, 100⟩]

/-- The `simple-crud` workload modifier of `modifiers.py`. -/
def SIMPLE_CRUD : WorkloadModifier where
  name := "simple-crud"
  description := "Short-lived workflows with 1-2 activities; optimised for low latency via eager execution"
  adjustments := [
    ("system.enableActivityEagerExecution", Value.bool true),
    ("sdk.disable_eager_activities", Value.bool false),
    ("matching.numTaskqueueReadPartitions", Value.int 4),
    ("matching.numTaskqueueWritePartitions", Value.int 4),
    ("sdk.max_concurrent_activities", Value.int 100),
    ("sdk.max_concurrent_workflow_tasks", Value.int 100)]


/-- The `orchestrator` workload modifier of `modifiers.py`. -/
def ORCHESTRATOR : WorkloadModifier where
  name := "orchestrator"
  description := "Workflows that coordinate child workflows and multiple activity types; balanced dispatch"
  adjustments := [
    ("matching.numTaskqueueReadPartitions", Value.int 8),
    ("matching.numTaskqueueWritePartitions", Value.int 8),
    ("sdk.max_concurrent_workflow_tasks", Value.int 150),
    ("sdk.max_concurrent_activities", Value.int 150),
    ("sdk.workflow_task_pollers", Value.int 16),
    ("sdk.activity_task_pollers", Value.int 8)]


/-- The `batch-processor` workload modifier of `modifiers.py`. -/
def BATCH_PROCESSOR : WorkloadModifier where
  name := "batch-processor"
  description := "High-volume activity processing with many parallel activities per workflow"
  adjustments := [
    ("matching.numTaskqueueReadPartitions", Value.int 16),
    ("matching.numTaskqueueWritePartitions", Value.int 16),
    ("sdk.max_concurrent_activities", Value.int 500),
    ("sdk.max_concurrent_local_activities", Value.int 500),
    ("sdk.activity_task_pollers", Value.int 16),
    ("sdk.workflow_task_pollers", Value.int 16)]


/-- The `long-running` workload modifier of `modifiers.py`. -/
def LONG_RUNNING : WorkloadModifier where
  name := "long-running"
  description := "Workflows that run for minutes to hours; optimised for sticky execution and state caching"
  adjustments := [
    ("sdk.sticky_schedule_to_start_timeout", Value.str "10s"),
    ("matching.numTaskqueueReadPartitions", Value.int 4),
    ("matching.numTaskqueueWritePartitions", Value.int 4),
    ("sdk.workflow_task_pollers", Value.int 8),
    ("sdk.activity_task_pollers", Value.int 4)]

/-- The `PRESETS` registry: lookup of scale presets by name. -/
def PRESETS : List (String × ScalePreset) :=
  [("starter", STARTER), ("mid-scale", MID_SCALE),
   ("high-throughput", HIGH_THROUGHPUT)]

/-- `PRESETS.get(name)`. -/
def presets_lookup (name : String) : Option ScalePreset :=
  (PRESETS.find? (fun p => p.1 == name)).map Prod.snd

/-- The `MODIFIERS` registry: lookup of workload modifiers by name. -/
def MODIFIERS : List (String × WorkloadModifier) :=
  [("simple-crud", SIMPLE_CRUD), ("orchestrator", ORCHESTRATOR),
   ("batch-processor", BATCH_PROCESSOR), ("long-running", LONG_RUNNING)]

/-- `MODIFIERS.get(name)`. -/
def modifiers_lookup (name : String) : Option WorkloadModifier :=
  (MODIFIERS.find? (fun p => p.1 == name)).map Prod.snd

/-!
## Config compiler pipeline

Embeds `dsql_config/compiler.py`: override validation, the resolution of
the four parameter classes (`_resolve_all`), the tiny derivation
expression language (`_evaluate_expression`), and `compile` up to its
success/failure decision.  Not modelled (output formatting downstream of
that decision, which no claim concerns): the compilation trace entries,
the dynamic-config YAML, the DSQL plugin config record, adapter snippets
and the "why" narrative.
-/

/-- Digits of a decimal numeral (none when empty or a non-digit occurs). -/
def digitsToNat? (cs : List Char) : Option Nat :=
  if cs.isEmpty then none
  else
    cs.foldl
      (fun acc? c =>
        match acc? with
        | none => none
        | some acc => if c.isDigit then some (acc * 10 + (c.toNat - 48)) else none)
      (some 0)

/-- Python `int(s)` on a stripped literal (optional sign, digits). -/
def parseIntLit (s : String) : Option Int :=
  match s.data with
  | '-' :: rest => (digitsToNat? rest).map (fun n => -(n : Int))
  | '+' :: rest => (digitsToNat? rest).map (fun n => (n : Int))
  | cs => (digitsToNat? cs).map (fun n => (n : Int))

/-- Helper for `parseFloatLit`: unsigned `digits[.digits]` forms. -/
def parseFloatAux (cs : List Char) : Option Rat :=
  let intPart := cs.takeWhile Char.isDigit
  let rest := cs.drop intPart.length
  match rest with
  | [] => (digitsToNat? intPart).map (fun n => (n : Rat))
  | '.' :: frac =>
    if frac.all Char.isDigit && !(intPart.isEmpty && frac.isEmpty) then
      let ip : Nat := (digitsToNat? intPart).getD 0
      let fp : Nat := (digitsToNat? frac).getD 0
      some (qadd (ip : Rat) (mkRat (fp : Int) (10 ^ frac.length)))
    else none
  | _ => none

/-- Python `float(s)` on a stripped literal (plain decimal forms; the
exponent notations never appear in a derivation expression). -/
def parseFloatLit (s : String) : Option Rat :=
  match s.data with
  | '-' :: rest => (parseFloatAux rest).map (fun q => -q)
  | '+' :: rest => parseFloatAux rest
  | cs => parseFloatAux cs

/-- Dict read (`m.get(k)`): first binding of the key. -/
def dictGet (m : List (String × Value)) (k : String) : Option Value :=
  (m.find? (fun p => p.1 == k)).map Prod.snd

/-- Dict membership (`k in m`). -/
def dictContains (m : List (String × Value)) (k : String) : Bool :=
  (m.find? (fun p => p.1 == k)).isSome

/-- Dict write (`m[k] = v`): replace the binding or append a new one. -/
def dictInsert (m : List (String × Value)) (k : String) (v : Value) : List (String × Value) :=
  if dictContains m k then m.map (fun p => if p.1 == k then (k, v) else p)
  else m ++ [(k, v)]

/-- `ConfigCompiler._evaluate_expression`: a context reference, a boolean
or quoted-string or numeric literal, else the stripped text itself. -/
def evaluate_expression (expression : String)
    (context : List (String × Value)) : Value :=
  let stripped := pyStrip expression
  match dictGet context stripped with
  | some v => v
  | none =>
    if stripped = "True" then .bool true
    else if stripped = "False" then .bool false
    else if stripped.data.head? = some '\'' && stripped.data.getLast? = some '\'' then
      .str ⟨(stripped.data.drop 1).dropLast⟩
    else
      match parseIntLit stripped with
      | some n => .int n
      | none =>
        match parseFloatLit stripped with
        | some q => .float q
        | none => .str stripped

/-- The four resolved parameter lists of `_resolve_all` (the source keys
them by classification in a dict). -/
structure ResolvedParams where
  slo : List ResolvedParameter
  topology : List ResolvedParameter
  safety : List ResolvedParameter
  tuning : List ResolvedParameter
deriving DecidableEq, Repr

/-- SLO resolution: preset default (falling back to the registry
default), then override. -/
def resolve_slo (reg : List ParameterEntry)
    (preset_values overrides : List (String × Value)) : List ResolvedParameter :=
  (list_by_classification reg .SLO).map (fun entry =>
    let base_value := (dictGet preset_values entry.key).getD entry.default_value
    let final_value := (dictGet overrides entry.key).getD base_value
    let source : ParamSource :=
      if dictContains overrides entry.key then .override
      else if dictContains preset_values entry.key then .preset
      else .default
    { key := entry.key, value := final_value,
      classification := .SLO, source := source })

/-- Topology resolution: preset default, then modifier adjustment, then
override. -/
def resolve_topology (reg : List ParameterEntry)
    (preset_values : List (String × Value)) (modifier : Option WorkloadModifier)
    (overrides : List (String × Value)) : List ResolvedParameter :=
  (list_by_classification reg .TOPOLOGY).map (fun entry =>
    let base0 := (dictGet preset_values entry.key).getD entry.default_value
    let base_value :=
      match modifier with
      | some m => (dictGet m.adjustments entry.key).getD base0
      | none => base0
    let final_value := (dictGet overrides entry.key).getD base_value
    let source : ParamSource :=
      if dictContains overrides entry.key then .override
      else if (match modifier with
               | some m => dictContains m.adjustments entry.key
               | none => false) then .modifier
      else if dictContains preset_values entry.key then .preset
      else .default
    { key := entry.key, value := final_value,
      classification := .TOPOLOGY, source := source })

/-- One iteration of the safety pass of `_resolve_all`: evaluate the
rule's expression against the context, let an override replace the
derived value, and write the **final** (post-override) value into the
context. -/
def resolve_safety_step (overrides : List (String × Value))
    (acc : List ResolvedParameter × List (String × Value))
    (rule : DerivationRule) : List ResolvedParameter × List (String × Value) :=
  let value := evaluate_expression rule.expression acc.2
  let final_value := (dictGet overrides rule.key).getD value
  let source : ParamSource :=
    if dictContains overrides rule.key then .override else .derived
  let param : ResolvedParameter :=
    { key := rule.key, value := final_value,
      classification := .SAFETY, source := source }
  (acc.1 ++ [param], dictInsert acc.2 rule.key final_value)

/-- Safety resolution: the derivation rules in declaration order over a
growing context that starts empty. -/
def resolve_safety (rules : List DerivationRule)
    (overrides : List (String × Value))
    : List ResolvedParameter × List (String × Value) :=
  rules.foldl (resolve_safety_step overrides) ([], [])

/-- Tuning resolution: derivation rules over the context carried forward
from safety resolution, with modifier adjustments layered on top. -/
def resolve_tuning (rules : List DerivationRule)
    (modifier : Option WorkloadModifier) (ctx0 : List (String × Value))
    : List ResolvedParameter × List (String × Value) :=
  rules.foldl
    (fun acc rule =>
      let value0 := evaluate_expression rule.expression acc.2
      let value :=
        match modifier with
        | some m => (dictGet m.adjustments rule.key).getD value0
        | none => value0
      let source : ParamSource :=
        if (match modifier with
            | some m => dictContains m.adjustments rule.key
            | none => false) then .modifier
        else .derived
      let param : ResolvedParameter :=
        { key := rule.key, value := value,
          classification := .TUNING, source := source }
      (acc.1 ++ [param], dictInsert acc.2 rule.key value))
    ([], ctx0)

/-- `_resolve_all`: preset defaults feed SLO and topology resolution;
safety and tuning values come from the derivation rules. -/
def resolve_all (reg : List ParameterEntry) (preset : ScalePreset)
    (modifier : Option WorkloadModifier)
    (overrides : List (String × Value)) : ResolvedParams :=
  let preset_values :=
    (preset.slo_defaults ++ preset.topology_defaults).foldl
      (fun m d => dictInsert m d.key d.value) []
  let slo := resolve_slo reg preset_values overrides
  let topology := resolve_topology reg preset_values modifier overrides
  let safety := resolve_safety preset.safety_derivations overrides
  let tuning := resolve_tuning preset.tuning_derivations modifier safety.2
  ⟨slo, topology, safety.1, tuning.1⟩

/-- The `ConfigProfile` that `compile` builds from the resolution result
(versions are the compiler's constructor constants; the wall-clock
`compiled_at` is carried as an empty string). -/
def build_profile (reg : List ParameterEntry) (preset : ScalePreset)
    (preset_name : String) (modifier_name : Option String)
    (modifier : Option WorkloadModifier)
    (overrides : List (String × Value)) : ConfigProfile :=
  let resolved := resolve_all reg preset modifier overrides
  { preset_name := preset_name
    modifier := modifier_name
    overrides := overrides
    slo_params := resolved.slo
    topology_params := resolved.topology
    safety_params := resolved.safety
    tuning_params := resolved.tuning
    temporal_server_version := "1.26.2"
    dsql_plugin_version := "1.26.2"
    compiled_at := ""
    compiler_version := "0.1.0" }

/-- The structured failures `compile` can raise. -/
inductive CompileError
  | unknownPreset (name : String)
  | unknownModifier (name : String)
  | unknownParameter (key : String)
  | constraintViolation (message : String)
  | compilationError (errors : List String)
deriving DecidableEq, Repr

/-- The successful outcome of `compile` (profile and accumulated guard
rail results; the rendered artifacts are not modelled). -/
structure CompileSuccess where
  profile : ConfigProfile
  guard_rail_results : List GuardRailResult
deriving DecidableEq, Repr

/-- The modifier lookup step of `compile`. -/
def lookup_modifier : Option String → Except CompileError (Option WorkloadModifier)
  | none => .ok none
  | some m =>
    match modifiers_lookup m with
    | none => .error (.unknownModifier m)
    | some wm => .ok (some wm)

/-- The first override key missing from the registry (the source raises
`UnknownParameterError` at it). -/
def first_invalid_override_key (reg : List ParameterEntry)
    (overrides : List (String × Value)) : Option String :=
  (overrides.find? (fun kv => (registry_get reg kv.1).isNone)).map Prod.fst

/-- The constraint violation an override value triggers, if any: the
numeric bounds apply to `int`/`float`/`bool` values (Python `isinstance`
counts `bool` as `int`), then the allowed-values check applies. -/
def constraint_violation_for (entry : ParameterEntry) (key : String)
    (value : Value) : Option String :=
  match entry.constraints with
  | none => none
  | some c =>
    let minViolation : Option String :=
      match value.asNum, c.min_value with
      | some x, some m =>
        if x < m then
          some ("Override for '" ++ key ++ "' (" ++ value.pyStr
            ++ ") is below minimum (" ++ (Value.float m).pyStr ++ ")")
        else none
      | _, _ => none
    let maxViolation : Option String :=
      match value.asNum, c.max_value with
      | some x, some m =>
        if m < x then
          some ("Override for '" ++ key ++ "' (" ++ value.pyStr
            ++ ") exceeds maximum (" ++ (Value.float m).pyStr ++ ")")
        else none
      | _, _ => none
    let allowedViolation : Option String :=
      match c.allowed_values with
      | some av =>
        if av.any (fun a => pyEq value a) then none
        else
          some ("Override for '" ++ key ++ "' (" ++ value.pyStr
            ++ ") not in allowed values")
      | none => none
    (minViolation.orElse (fun _ => maxViolation)).orElse (fun _ => allowedViolation)

/-- The first constraint violation among the overrides, in insertion
order (the source raises `ConstraintViolationError` at it). -/
def first_constraint_violation (reg : List ParameterEntry)
    (overrides : List (String × Value)) : Option String :=
  overrides.findSome? (fun kv =>
    match registry_get reg kv.1 with
    | some entry => constraint_violation_for entry kv.1 kv.2
    | none => none)

/-- The tail of `compile` once preset and modifier are resolved:
validation, resolution, profile construction, guard rails, and the
success/failure decision — failing with the collected messages of every
error-severity result. -/
def compile_after_lookup (reg : List ParameterEntry) (sp : ScalePreset)
    (preset_name : String) (modifier_name : Option String)
    (wm : Option WorkloadModifier) (overrides : List (String × Value))
    : Except CompileError CompileSuccess :=
  match first_invalid_override_key reg overrides with
  | some k => .error (.unknownParameter k)
  | none =>
    match first_constraint_violation reg overrides with
    | some msg => .error (.constraintViolation msg)
    | none =>
      let profile := build_profile reg sp preset_name modifier_name wm overrides
      let results := guard_rails_evaluate profile
      let errors := results.filter (fun r => r.severity = Severity.error)
      if errors.isEmpty then
        .ok { profile := profile, guard_rail_results := results }
      else
        .error (.compilationError (errors.map (fun r => r.message)))

/-- `ConfigCompiler.compile` for a compiler built over the given
registry. -/
def compile_config (reg : List ParameterEntry) (preset : String)
    (modifier : Option String) (overrides : List (String × Value))
    : Except CompileError CompileSuccess :=
  match presets_lookup preset with
  | none => .error (.unknownPreset preset)
  | some sp =>
    match lookup_modifier modifier with
    | .error e => .error e
    | .ok wm => compile_after_lookup reg sp preset modifier wm overrides

/-- A profile that simultaneously violates three error rails: idle pool
ceiling differs from the open ceiling, zero jitter with the reservoir
enabled, and a zero reservoir target. -/
def threeViolationProfile : ConfigProfile where
  preset_name := "mid-scale"
  modifier := none
  overrides := []
  slo_params := []
  topology_params := []
  safety_params :=
    [⟨"persistence.maxConns", .int 100, .SAFETY, .derived⟩,
     ⟨"persistence.maxIdleConns", .int 50, .SAFETY, .override⟩,
     ⟨"dsql.reservoir_enabled", .bool true, .SAFETY, .derived⟩,
     ⟨"dsql.reservoir_target_ready", .int 0, .SAFETY, .override⟩,
     ⟨"dsql.reservoir_lifetime_jitter", .str "0s", .SAFETY, .override⟩]
  tuning_params := []
  temporal_server_version := "1.26.2"
  dsql_plugin_version := "1.26.2"
  compiled_at := ""
  compiler_version := "0.1.0"

/-- C7: With the preset and modifier resolved and the overrides passing
validation, `compile` succeeds exactly when the guard-rail results
accumulated over the resolved profile contain no error-severity result,
and on failure it carries the messages of **all** error results; the
engine runs every rule, so the three-violation profile yields three
error results (one per violated rail), not one. -/
theorem compile_fails_iff_guard_errors_and_accumulates
    (reg : List ParameterEntry) (preset : String) (modifier : Option String)
    (overrides : List (String × Value)) (sp : ScalePreset)
    (wm : Option WorkloadModifier)
    (hp : presets_lookup preset = some sp)
    (hm : lookup_modifier modifier = .ok wm)
    (hk : first_invalid_override_key reg overrides = none)
    (hc : first_constraint_violation reg overrides = none) :
    ((compile_config reg preset modifier overrides).isOk = true ↔
        (guard_rails_evaluate
            (build_profile reg sp preset modifier wm overrides)).filter
          (fun r => r.severity = Severity.error) = [])
      ∧ (∀ msgs, compile_config reg preset modifier overrides
            = .error (.compilationError msgs) →
          msgs = ((guard_rails_evaluate
                (build_profile reg sp preset modifier wm overrides)).filter
              (fun r => r.severity = Severity.error)).map (fun r => r.message))
      ∧ (guard_rails_evaluate threeViolationProfile).map
            (fun r => (r.rule_name, r.severity))
          = [("max_idle_equals_max_conns", Severity.error),
             ("thundering_herd_risk", Severity.error),
             ("reservoir_target_zero", Severity.error)] := by
  have hcc : compile_config reg preset modifier overrides
      = compile_after_lookup reg sp preset modifier wm overrides := by
    unfold compile_config
    rw [hp, hm]
  rw [hcc]
  unfold compile_after_lookup
  rw [hk, hc]
  dsimp only
  refine ⟨?_, ?_, by decide⟩
  · by_cases hE : (guard_rails_evaluate
        (build_profile reg sp preset modifier wm overrides)).filter
          (fun r => r.severity = Severity.error) = []
    · rw [if_pos (List.isEmpty_iff.mpr hE)]
      exact ⟨fun _ => hE, fun _ => rfl⟩
    · rw [if_neg (fun h => hE (List.isEmpty_iff.mp h))]
      constructor
      · intro h
        simp [Except.isOk, Except.toBool] at h
      · intro h
        exact absurd h hE
  · intro msgs hmsg
    by_cases hE : (guard_rails_evaluate
        (build_profile reg sp preset modifier wm overrides)).filter
          (fun r => r.severity = Severity.error) = []
    · rw [if_pos (List.isEmpty_iff.mpr hE)] at hmsg
      exact absurd hmsg (by simp)
    · rw [if_neg (fun h => hE (List.isEmpty_iff.mp h))] at hmsg
      have h1 := Except.error.inj hmsg
      have h2 := CompileError.compilationError.inj h1
      exact h2.symm

/-- Witness for C7: compiling the `starter` preset with no modifier and
no overrides (so every validation hypothesis holds trivially) succeeds;
via the theorem, its guard rails produce no error result. -/
theorem compile_fails_iff_guard_errors_and_accumulates_witness :
    (compile_config [] "starter" none []).isOk = true :=
  (compile_fails_iff_guard_errors_and_accumulates [] "starter" none []
      STARTER none rfl rfl rfl rfl).1.mpr (by decide)

/-- The registry entry for `persistence.maxConns` (from
`registry.py`). -/
def maxConnsEntry : ParameterEntry where
  key := "persistence.maxConns"
  classification := .SAFETY
  default_value := .int 50
  constraints := some { min_value := some 1, max_value := some 500 }

/-- The registry entry for `persistence.maxIdleConns` (from
`registry.py`). -/
def maxIdleConnsEntry : ParameterEntry where
  key := "persistence.maxIdleConns"
  classification := .SAFETY
  default_value := .int 50
  constraints := some { min_value := some 1, max_value := some 500 }

/-- A registry carrying the two persistence pool entries. -/
def connsRegistry : List ParameterEntry := [maxConnsEntry, maxIdleConnsEntry]

/-- The safety pass splits around any fold prefix: the parameters a run
from accumulator `acc` produces are `acc`'s followed by those of a fresh
run started from `acc`'s context (each step appends one parameter and
reads only the context). -/
theorem resolve_safety_foldl_fst (ov : List (String × Value))
    (rules : List DerivationRule)
    (acc : List ResolvedParameter × List (String × Value)) :
    (List.foldl (resolve_safety_step ov) acc rules).1
      = acc.1 ++ (List.foldl (resolve_safety_step ov) ([], acc.2) rules).1 := by
  induction rules generalizing acc with
  | nil => simp
  | cons r rs ih =>
    simp only [List.foldl_cons]
    rw [ih (resolve_safety_step ov acc r),
      ih (resolve_safety_step ov ([], acc.2) r)]
    simp [resolve_safety_step, List.append_assoc]

/-- C10: Safety derivations see the final post-override values of the
parameters resolved before them — for every override value `v` of
`persistence.maxConns`, the `starter` derivation of
`persistence.maxIdleConns` (whose expression is the bare key
`persistence.maxConns`) resolves to `v`; and a full compile of `starter`
with only a `persistence.maxConns = 30` override yields
`maxIdleConns == maxConns == 30` and passes the
`max_idle_equals_max_conns` guard rail. -/
theorem safety_derivation_sees_overridden_maxconns :
    (∀ v : Value,
        ((resolve_safety STARTER.safety_derivations
              [("persistence.maxConns", v)]).1.find?
            (fun p => p.key == "persistence.maxIdleConns")).map
          (fun p => (p.value, p.source))
          = some (v, ParamSource.derived))
      ∧ ((compile_config connsRegistry "starter" none
            [("persistence.maxConns", Value.int 30)]).toOption.map
          (fun res =>
            ((res.profile.get_param "persistence.maxConns").map
                (fun p => (p.value, p.source)),
              (res.profile.get_param "persistence.maxIdleConns").map
                (fun p => (p.value, p.source)),
              check_max_idle_equals_max_conns res.profile)))
        = some (some (Value.int 30, ParamSource.override),
            some (Value.int 30, ParamSource.derived), none) := by
  refine ⟨fun v => ?_, by decide⟩
  rw [show STARTER.safety_derivations
      = STARTER.safety_derivations.take 2 ++ STARTER.safety_derivations.drop 2
    from (List.take_append_drop 2 _).symm]
  simp only [resolve_safety]
  rw [List.foldl_append, resolve_safety_foldl_fst]
  rfl

/-!
## Behaviour profiles and comparison

Embeds `copilot_core/models.py`, `behaviour_profiles/models.py` and
`behaviour_profiles/comparison.py`.  PEP 440 versions are carried as
strings (comparison only tests inequality).  A dynamic-config value may
also be a list of strings in the source; no modelled profile carries one
and no claim concerns config diffs, so `Value` stands in.
-/

/-- `MetricAggregate` from `copilot_core/models.py`. -/
structure MetricAggregate where
  min : Rat
  max : Rat
  mean : Rat
  p50 : Rat
  p95 : Rat
  p99 : Rat
deriving DecidableEq, Repr

/-- `ServiceMetrics` from `copilot_core/models.py`. -/
structure ServiceMetrics where
  history : MetricAggregate
  matching : MetricAggregate
  frontend : MetricAggregate
  worker : MetricAggregate
deriving DecidableEq, Repr

/-- `DynamicConfigEntry` from `behaviour_profiles/models.py`. -/
structure DynamicConfigEntry where
  key : String
  value : Value
deriving DecidableEq, Repr

/-- `EnvVarEntry` from `behaviour_profiles/models.py`. -/
structure EnvVarEntry where
  name : String
  value : String
  redacted : Bool := false
deriving DecidableEq, Repr

/-- `WorkerOptionsSnapshot` from `behaviour_profiles/models.py`. -/
structure WorkerOptionsSnapshot where
  max_concurrent_activities : Option Int := none
  max_concurrent_workflow_tasks : Option Int := none
  max_concurrent_local_activities : Option Int := none
  workflow_task_pollers : Option Int := none
  activity_task_pollers : Option Int := none
  sticky_schedule_to_start_timeout_sec : Option Rat := none
  disable_eager_activities : Option Bool := none
deriving DecidableEq, Repr

/-- `DSQLPluginSnapshot` from `behaviour_profiles/models.py`. -/
structure DSQLPluginSnapshot where
  reservoir_enabled : Bool
  reservoir_target_ready : Int
  reservoir_base_lifetime_min : Rat
  reservoir_lifetime_jitter_min : Rat
  reservoir_guard_window_sec : Rat
  max_conns : Int
  max_idle_conns : Int
  max_conn_lifetime_min : Rat
  distributed_rate_limiter_enabled : Bool
  token_bucket_enabled : Bool
  token_bucket_rate : Option Int := none
  token_bucket_capacity : Option Int := none
  slot_block_enabled : Bool
  slot_block_size : Option Int := none
  slot_block_count : Option Int := none
deriving DecidableEq, Repr

/-- `ConfigSnapshot` from `behaviour_profiles/models.py`. -/
structure ConfigSnapshot where
  dynamic_config : List DynamicConfigEntry
  server_env_vars : List EnvVarEntry
  worker_options : WorkerOptionsSnapshot
  dsql_plugin_config : DSQLPluginSnapshot
deriving DecidableEq, Repr

/-- `ThroughputMetrics` from `behaviour_profiles/models.py`. -/
structure ThroughputMetrics where
  workflows_started_per_sec : MetricAggregate
  workflows_completed_per_sec : MetricAggregate
  state_transitions_per_sec : MetricAggregate
deriving DecidableEq, Repr

/-- `LatencyMetrics` from `behaviour_profiles/models.py`. -/
structure LatencyMetrics where
  workflow_schedule_to_start_p95 : MetricAggregate
  workflow_schedule_to_start_p99 : MetricAggregate
  activity_schedule_to_start_p95 : MetricAggregate
  activity_schedule_to_start_p99 : MetricAggregate
  persistence_latency_p95 : MetricAggregate
  persistence_latency_p99 : MetricAggregate
deriving DecidableEq, Repr

/-- `MatchingMetrics` from `behaviour_profiles/models.py`. -/
structure MatchingMetrics where
  sync_match_rate : MetricAggregate
  async_match_rate : MetricAggregate
  task_dispatch_latency : MetricAggregate
  backlog_count : MetricAggregate
  backlog_age : MetricAggregate
deriving DecidableEq, Repr

/-- `DSQLPoolMetrics` from `behaviour_profiles/models.py`. -/
structure DSQLPoolMetrics where
  pool_open_count : MetricAggregate
  pool_in_use_count : MetricAggregate
  pool_idle_count : MetricAggregate
  reservoir_size : MetricAggregate
  reservoir_empty_events : MetricAggregate
  open_failures : MetricAggregate
  reconnect_count : MetricAggregate
deriving DecidableEq, Repr

/-- `ErrorMetrics` from `behaviour_profiles/models.py`. -/
structure ErrorMetrics where
  occ_conflicts_per_sec : MetricAggregate
  exhausted_retries_per_sec : MetricAggregate
  dsql_auth_failures : MetricAggregate
deriving DecidableEq, Repr

/-- `ResourceMetrics` from `behaviour_profiles/models.py`. -/
structure ResourceMetrics where
  cpu_utilization : ServiceMetrics
  memory_utilization : ServiceMetrics
  worker_task_slot_utilization : MetricAggregate
deriving DecidableEq, Repr

/-- `TelemetrySummary` from `behaviour_profiles/models.py`. -/
structure TelemetrySummary where
  throughput : ThroughputMetrics
  latency : LatencyMetrics
  matching : MatchingMetrics
  dsql_pool : DSQLPoolMetrics
  errors : ErrorMetrics
  resources : ResourceMetrics
deriving DecidableEq, Repr

/-- `BehaviourProfile` from `behaviour_profiles/models.py` (the column
`namespace` is rendered `nspace`, a Lean keyword). -/
structure BehaviourProfile where
  id : String
  name : String
  label : Option String := none
  cluster_id : String
  nspace : Option String := none
  task_queue : Option String := none
  time_window_start : String
  time_window_end : String
  temporal_server_version : Option String := none
  dsql_plugin_version : Option String := none
  worker_code_sha : Option String := none
  config_snapshot : Option ConfigSnapshot := none
  telemetry : TelemetrySummary
  created_at : String
  is_baseline : Bool := false
deriving DecidableEq, Repr

/-- `ConfigDiff` from `behaviour_profiles/models.py`. -/
structure ConfigDiff where
  key : String
  old_value : Value
  new_value : Value
  classification : Option ParameterClassification := none
deriving DecidableEq, Repr

/-- Direction of a telemetry change. -/
inductive Direction
  | improved
  | regressed
  | unchanged
deriving DecidableEq, Repr

/-- Severity of a telemetry diff (`Literal["info", "warning",
"critical"]`). -/
inductive DiffSeverity
  | info
  | warning
  | critical
deriving DecidableEq, Repr

/-- `TelemetryDiff` from `behaviour_profiles/models.py`. -/
structure TelemetryDiff where
  metric : String
  old_value : MetricAggregate
  new_value : MetricAggregate
  change_pct : Rat
  direction : Direction
  severity : DiffSeverity
deriving DecidableEq, Repr

/-- `VersionDiff` from `behaviour_profiles/models.py`. -/
structure VersionDiff where
  component : String
  old_version : Option String
  new_version : Option String
deriving DecidableEq, Repr

/-- `ProfileComparison` from `behaviour_profiles/models.py`. -/
structure ProfileComparison where
  profile_a_id : String
  profile_b_id : String
  config_diffs : List ConfigDiff
  telemetry_diffs : List TelemetryDiff
  version_diffs : List VersionDiff
deriving DecidableEq, Repr

/-- `_pct_change`: percentage change from old to new; 0 (or 100) when
the old mean is zero. -/
def pct_change (old new : Rat) : Rat :=
  if old = 0 then (if new = 0 then 0 else 100)
  else qmul (qdiv (qsub new old) (qabs old)) 100

/-- Name-based error classification of a metric
(`"error" in name or "conflict" in name or "failure" in name or
"empty" in name`). -/
def is_error_name (name : String) : Bool :=
  strContains name "error" || strContains name "conflict"
    || strContains name "failure" || strContains name "empty"

/-- Name-based throughput classification (`per_sec` and not
error-like). -/
def is_throughput_name (name : String) : Bool :=
  strContains name "per_sec" && !is_error_name name

/-- One telemetry diff of `_compare_telemetry`: direction from the
metric's name semantics, severity from the category threshold
(`error_threshold_pct` for error-like names, `latency_threshold_pct`
for every other name — including throughput), and the stored change
percentage rounded to two decimals. -/
def telemetry_diff_for (name : String) (old new : MetricAggregate)
    (latency_threshold_pct error_threshold_pct : Rat) : TelemetryDiff :=
  let change_pct := pct_change old.mean new.mean
  let is_error := is_error_name name
  let is_throughput := strContains name "per_sec" && !is_error
  let direction : Direction :=
    if qabs change_pct < 5 then .unchanged
    else if is_throughput then (if 0 < change_pct then .improved else .regressed)
    else (if change_pct < 0 then .improved else .regressed)
  let threshold := if is_error then error_threshold_pct else latency_threshold_pct
  let severity : DiffSeverity :=
    if direction = .regressed ∧ qmul threshold 2 < qabs change_pct then .critical
    else if direction = .regressed ∧ threshold < qabs change_pct then .warning
    else .info
  { metric := name, old_value := old, new_value := new,
    change_pct := pyRound2 change_pct, direction := direction,
    severity := severity }

/-- `_flatten_telemetry`: the curated metric catalogue as
(name, aggregate) pairs in source order (the Python dict has these 25
distinct keys). -/
def flatten_telemetry (profile : BehaviourProfile) : List (String × MetricAggregate) :=
  let t := profile.telemetry
  [("workflows_started_per_sec", t.throughput.workflows_started_per_sec),
   ("workflows_completed_per_sec", t.throughput.workflows_completed_per_sec),
   ("state_transitions_per_sec", t.throughput.state_transitions_per_sec),
   ("workflow_schedule_to_start_p95", t.latency.workflow_schedule_to_start_p95),
   ("workflow_schedule_to_start_p99", t.latency.workflow_schedule_to_start_p99),
   ("activity_schedule_to_start_p95", t.latency.activity_schedule_to_start_p95),
   ("activity_schedule_to_start_p99", t.latency.activity_schedule_to_start_p99),
   ("persistence_latency_p95", t.latency.persistence_latency_p95),
   ("persistence_latency_p99", t.latency.persistence_latency_p99),
   ("sync_match_rate", t.matching.sync_match_rate),
   ("async_match_rate", t.matching.async_match_rate),
   ("task_dispatch_latency", t.matching.task_dispatch_latency),
   ("backlog_count", t.matching.backlog_count),
   ("backlog_age", t.matching.backlog_age),
   ("pool_open_count", t.dsql_pool.pool_open_count),
   ("pool_in_use_count", t.dsql_pool.pool_in_use_count),
   ("pool_idle_count", t.dsql_pool.pool_idle_count),
   ("reservoir_size", t.dsql_pool.reservoir_size),
   ("reservoir_empty_events", t.dsql_pool.reservoir_empty_events),
   ("open_failures", t.dsql_pool.open_failures),
   ("reconnect_count", t.dsql_pool.reconnect_count),
   ("occ_conflicts_per_sec", t.errors.occ_conflicts_per_sec),
   ("exhausted_retries_per_sec", t.errors.exhausted_retries_per_sec),
   ("dsql_auth_failures", t.errors.dsql_auth_failures),
   ("worker_task_slot_utilization", t.resources.worker_task_slot_utilization)]

/-- `_compare_telemetry`: one diff per metric name common to both
flattened catalogues, iterated in sorted name order. -/
def compare_telemetry (a b : BehaviourProfile)
    (latency_threshold_pct error_threshold_pct : Rat) : List TelemetryDiff :=
  let a_metrics := flatten_telemetry a
  let b_metrics := flatten_telemetry b
  let common := (a_metrics.map Prod.fst).filter
    (fun n => (b_metrics.map Prod.fst).contains n)
  (insertionSort strLe common).filterMap (fun name =>
    match (a_metrics.find? (fun p => p.1 == name)).map Prod.snd,
        (b_metrics.find? (fun p => p.1 == name)).map Prod.snd with
    | some old, some new =>
      some (telemetry_diff_for name old new
        latency_threshold_pct error_threshold_pct)
    | _, _ => none)

/-- `_compare_config` on the two snapshots: key-level diffs of dynamic
config and of non-redacted env vars, over the sorted union of keys,
reporting only keys present on both sides with differing values. -/
def compare_config (ca cb : ConfigSnapshot) : List ConfigDiff :=
  let a_dc := ca.dynamic_config.foldl (fun m e => dictInsert m e.key e.value) []
  let b_dc := cb.dynamic_config.foldl (fun m e => dictInsert m e.key e.value) []
  let dcKeys := insertionSort strLe
    ((a_dc.map Prod.fst) ++ (b_dc.map Prod.fst).filter
      (fun k => !(a_dc.map Prod.fst).contains k))
  let dcDiffs := dcKeys.filterMap (fun key =>
    match dictGet a_dc key, dictGet b_dc key with
    | some old, some new =>
      if pyEq old new then none
      else some
        { key := "dynamic_config." ++ key, old_value := old,
          new_value := new }
    | _, _ => none)
  let a_env := (ca.server_env_vars.filter (fun e => !e.redacted)).foldl
    (fun m e => dictInsert m e.name (.str e.value)) []
  let b_env := (cb.server_env_vars.filter (fun e => !e.redacted)).foldl
    (fun m e => dictInsert m e.name (.str e.value)) []
  let envKeys := insertionSort strLe
    ((a_env.map Prod.fst) ++ (b_env.map Prod.fst).filter
      (fun k => !(a_env.map Prod.fst).contains k))
  let envDiffs := envKeys.filterMap (fun key =>
    match dictGet a_env key, dictGet b_env key with
    | some old, some new =>
      if pyEq old new then none
      else some
        { key := "env." ++ key, old_value := old, new_value := new }
    | _, _ => none)
  dcDiffs ++ envDiffs

/-- `_compare_versions`: version metadata diffs (the worker code SHA is
reported with both versions `None`, as in the source). -/
def compare_versions (a b : BehaviourProfile) : List VersionDiff :=
  (if a.temporal_server_version ≠ b.temporal_server_version then
    [({ component := "temporal_server", old_version := a.temporal_server_version,
        new_version := b.temporal_server_version } : VersionDiff)]
  else [])
  ++ (if a.dsql_plugin_version ≠ b.dsql_plugin_version then
    [({ component := "dsql_plugin", old_version := a.dsql_plugin_version,
        new_version := b.dsql_plugin_version } : VersionDiff)]
  else [])
  ++ (if a.worker_code_sha ≠ b.worker_code_sha then
    [({ component := "worker_code_sha", old_version := none,
        new_version := none } : VersionDiff)]
  else [])

/-- The rank Python's sort key gives a severity
(`{"critical": 0, "warning": 1, "info": 2}`). -/
def severity_order : DiffSeverity → Nat
  | .critical => 0
  | .warning => 1
  | .info => 2

/-- The comparison behind `telemetry_diffs.sort`: ascending severity
rank, then descending absolute change. -/
def diff_sort_le (d1 d2 : TelemetryDiff) : Bool :=
  severity_order d1.severity < severity_order d2.severity
    || (severity_order d1.severity = severity_order d2.severity
        && qabs d2.change_pct ≤ qabs d1.change_pct)

/-- `compare_profiles`: the structured diff of two profiles, telemetry
diffs sorted by (severity, -|change|).  The source reads
`config_snapshot.dynamic_config` unconditionally, so a missing snapshot
raises (`none` here). -/
def compare_profiles (a b : BehaviourProfile)
    (latency_threshold_pct : Rat := 20) (error_threshold_pct : Rat := 50)
    : Option ProfileComparison :=
  match a.config_snapshot, b.config_snapshot with
  | some ca, some cb =>
    some
      { profile_a_id := a.id
        profile_b_id := b.id
        config_diffs := compare_config ca cb
        telemetry_diffs := insertionSort diff_sort_le
          (compare_telemetry a b latency_threshold_pct error_threshold_pct)
        version_diffs := compare_versions a b }
  | _, _ => none

/-- Membership is preserved by sorted insertion. -/
theorem mem_insertLe {α : Type} (le : α → α → Bool) (x y : α) (l : List α) :
    y ∈ insertLe le x l ↔ y = x ∨ y ∈ l := by
  induction l with
  | nil => simp [insertLe]
  | cons z zs ih =>
    unfold insertLe
    split_ifs with h
    · simp [List.mem_cons]
    · simp only [List.mem_cons, ih]
      tauto

/-- `insertionSort` is a permutation in the membership sense. -/
theorem mem_insertionSort {α : Type} (le : α → α → Bool) (x : α) (l : List α) :
    x ∈ insertionSort le l ↔ x ∈ l := by
  induction l with
  | nil => simp [insertionSort]
  | cons z zs ih => simp [insertionSort, mem_insertLe, ih]

/-- A constant metric aggregate. -/
def constAgg (q : Rat) : MetricAggregate := ⟨q, q, q, q, q, q⟩

/-- Constant per-service metrics. -/
def constService (q : Rat) : ServiceMetrics :=
  ⟨constAgg q, constAgg q, constAgg q, constAgg q⟩

/-- A telemetry summary with every aggregate constant. -/
def flatTelemetry (q : Rat) : TelemetrySummary where
  throughput := ⟨constAgg q, constAgg q, constAgg q⟩
  latency := ⟨constAgg q, constAgg q, constAgg q, constAgg q, constAgg q, constAgg q⟩
  matching := ⟨constAgg q, constAgg q, constAgg q, constAgg q, constAgg q⟩
  dsql_pool := ⟨constAgg q, constAgg q, constAgg q, constAgg q, constAgg q,
    constAgg q, constAgg q⟩
  errors := ⟨constAgg q, constAgg q, constAgg q⟩
  resources := ⟨constService q, constService q, constAgg q⟩

/-- A plugin snapshot for the comparison profiles. -/
def basePluginSnapshot : DSQLPluginSnapshot :=
  ⟨false, 10, 11, 2, 45, 10, 10, 55, false, false, none, none, false, none, none⟩

/-- A config snapshot with no dynamic-config entries and no env vars. -/
def emptyConfigSnapshot : ConfigSnapshot := ⟨[], [], {}, basePluginSnapshot⟩

/-- A steady profile: every telemetry mean at 100. -/
def profileSteady : BehaviourProfile where
  id := "profile-a"
  name := "steady"
  cluster_id := "cluster-1"
  time_window_start := "2026-01-01T00:00:00Z"
  time_window_end := "2026-01-01T01:00:00Z"
  config_snapshot := some emptyConfigSnapshot
  telemetry := flatTelemetry 100
  created_at := "2026-01-01T01:00:00Z"

/-- The same profile with the state-transition throughput mean halved
(a 50% throughput regression, every other metric unchanged). -/
def profileThroughputDrop : BehaviourProfile :=
  { profileSteady with
    id := "profile-b"
    name := "dropped"
    telemetry :=
      { flatTelemetry 100 with
        throughput := ⟨constAgg 100, constAgg 100, constAgg 50⟩ } }

/-- Counterexample to C8: under default thresholds, the 50% regression
of the throughput metric `state_transitions_per_sec` is classified
**critical** by `compare_profiles` — not warning as a 30% throughput
threshold would dictate (50 ≤ 2·30): `compare_profiles` takes only
`latency_threshold_pct` and `error_threshold_pct`, and a throughput
metric falls under the latency threshold of 20 (so critical above
40). -/
theorem throughput_regression_classified_by_latency_threshold :
    ((compare_profiles profileSteady profileThroughputDrop).map (fun cmp =>
        (cmp.telemetry_diffs.filter
            (fun d => d.metric == "state_transitions_per_sec")).map
          (fun d => (d.direction, d.severity, d.change_pct))))
      = some [(Direction.regressed, DiffSeverity.critical, -50)] := by
  decide

/-- C8 (amended): in `compare_profiles` the severity threshold is
category-specific only between error-like metrics
(`error_threshold_pct`, default 50) and all other metrics
(`latency_threshold_pct`, default 20): every telemetry diff it emits
carries the direction given by the metric's name semantics and the
severity given by that two-way threshold — a regressed throughput
metric is warning when |change| exceeds the latency threshold and
critical when it exceeds twice the latency threshold (20 and 40 under
defaults); no separate throughput threshold exists here (the 30%
throughput default lives in drift detection's `DriftThresholds`). -/
theorem telemetry_severity_is_error_or_latency_threshold
    (a b : BehaviourProfile) (lt et : Rat) (cmp : ProfileComparison)
    (d : TelemetryDiff)
    (hcmp : compare_profiles a b lt et = some cmp)
    (hd : d ∈ cmp.telemetry_diffs) :
    d.direction
        = (if qabs (pct_change d.old_value.mean d.new_value.mean) < 5 then
            Direction.unchanged
          else if is_throughput_name d.metric then
            (if 0 < pct_change d.old_value.mean d.new_value.mean then
              Direction.improved
            else Direction.regressed)
          else if pct_change d.old_value.mean d.new_value.mean < 0 then
            Direction.improved
          else Direction.regressed)
      ∧ d.severity
        = (if d.direction = Direction.regressed
              ∧ qmul (if is_error_name d.metric then et else lt) 2
                < qabs (pct_change d.old_value.mean d.new_value.mean) then
            DiffSeverity.critical
          else if d.direction = Direction.regressed
              ∧ (if is_error_name d.metric then et else lt)
                < qabs (pct_change d.old_value.mean d.new_value.mean) then
            DiffSeverity.warning
          else DiffSeverity.info)
      ∧ d.change_pct
        = pyRound2 (pct_change d.old_value.mean d.new_value.mean) := by
  unfold compare_profiles at hcmp
  cases hca : a.config_snapshot with
  | none => rw [hca] at hcmp; exact absurd hcmp (by simp)
  | some ca =>
    cases hcb : b.config_snapshot with
    | none => rw [hca, hcb] at hcmp; exact absurd hcmp (by simp)
    | some cb =>
      rw [hca, hcb] at hcmp
      have hstruct := Option.some.inj hcmp
      have hdiffs : cmp.telemetry_diffs
          = insertionSort diff_sort_le (compare_telemetry a b lt et) := by
        rw [← hstruct]
      rw [hdiffs, mem_insertionSort] at hd
      unfold compare_telemetry at hd
      obtain ⟨name, _, hdeq⟩ := List.mem_filterMap.mp hd
      cases hA : ((flatten_telemetry a).find? (fun p => p.1 == name)).map
          Prod.snd with
      | none => rw [hA] at hdeq; simp at hdeq
      | some old =>
        cases hB : ((flatten_telemetry b).find? (fun p => p.1 == name)).map
            Prod.snd with
        | none => rw [hA, hB] at hdeq; simp at hdeq
        | some new =>
          rw [hA, hB] at hdeq
          have hda := Option.some.inj hdeq
          subst hda
          exact ⟨rfl, rfl, rfl⟩

/-- The diff `compare_profiles` produces for the halved throughput
metric. -/
def throughputDropDiff : TelemetryDiff :=
  telemetry_diff_for "state_transitions_per_sec" (constAgg 100) (constAgg 50)
    20 50

/-- Witness for C8 (amended): the halved-throughput diff of the
concrete comparison satisfies the two-way threshold rule, which
classifies it critical (|−50| exceeds twice the latency threshold). -/
theorem telemetry_severity_is_error_or_latency_threshold_witness :
    throughputDropDiff.severity = DiffSeverity.critical :=
  ((telemetry_severity_is_error_or_latency_threshold profileSteady
      profileThroughputDrop 20 50
      ((compare_profiles profileSteady profileThroughputDrop).get (by decide))
      throughputDropDiff
      (Option.some_get (by decide)).symm
      (by decide)).2.1).trans (by decide)
